import Mathlib

/-!
# Camera calibration orchestration: embedding and verification

Shallow embedding of `src/src/CameraCalibration.cc` and
`src/include/CameraCalibration.hh`.

Conventions of the embedding
* `float`/`double` coordinates and lengths are taken exactly: point coordinates are
  rationals, and the error analysis works over an arbitrary field `R` (the reals in the
  theorems) with `std::sqrt` passed in as a function.  A `double` that may be `NaN` or
  infinite (the result of a division by zero) is an `Option R`, `none` standing for the
  non-finite value.
* `int` loop counters and vector sizes are `Nat`; `uint16_t`/`uint32_t` arithmetic carries
  an explicit `% 2^16` / `% 2^32`.
* `cv::Mat` images are `Option Img` (`none` is the empty matrix, `data == nullptr`).
* OpenCV routines are external collaborators, passed in as a record of functions.
* Console output and the diagnostic drawing/`imshow`/`imwrite` calls are left out, except
  in `validateSettings`, whose only effect is its output.
-/

set_option autoImplicit false

namespace CamCalib

/-! ## Data model -/

/-- The type `cv::Point2f`. -/
structure Point2f where
  x : ℚ
  y : ℚ
deriving DecidableEq

/-- The type `cv::Point3f`. -/
structure Point3f where
  x : ℚ
  y : ℚ
  z : ℚ
deriving DecidableEq

/-- The type `cv::Size2i`. -/
structure Size2i where
  width : Int
  height : Int
deriving DecidableEq

/-- Enumerator `CAPTURED_IMAGES` of `InputType`. -/
def CAPTURED_IMAGES : Int := 0
/-- Enumerator `CAPTURED_VIDEO` of `InputType`. -/
def CAPTURED_VIDEO : Int := 1
/-- Enumerator `LIVE_STREAM` of `InputType`. -/
def LIVE_STREAM : Int := 2

/-- Enumerator `CHESS_BOARD` of `PatternType`. -/
def CHESS_BOARD : Int := 0
/-- Enumerator `CIRCLE_GRID` of `PatternType`. -/
def CIRCLE_GRID : Int := 1
/-- Enumerator `ASYMMETRIC_CIRCLE_GRID` of `PatternType`. -/
def ASYMMETRIC_CIRCLE_GRID : Int := 2

/-- The struct `CalibrationSettings`.  The two enum fields hold whatever integer was read
from the settings file, the way the C++ enums do. -/
structure CalibrationSettings where
  board_size : Size2i
  square_size : ℚ
  dist_between_centers : ℚ
  input : Int
  pattern : Int
  write_extrinsic_params : Bool
  write_detected_feature_points : Bool
  write_3d_grid_points : Bool
  show_undistorted_image : Bool
  flip_around_horizontal_axis : Bool
  no_tangential_distortion : Bool
  fix_principal_point : Bool
  fix_k1 : Bool
  fix_k2 : Bool
  fix_k3 : Bool
  fix_k4 : Bool
  fix_k5 : Bool
  image_folder : String
  capture_store_path : String
  video_folder : String
  fix_aspect_ratio : Bool
  delay : Nat
  num_frames : Nat
deriving DecidableEq

/-! ## Settings validation -/

/-- The method `CalibrationSettings::validateSettings`: the result is the list of lines
written to `std::cerr`; the function has no other effect and always returns. -/
def validateSettings (s : CalibrationSettings) : List String :=
  (if s.board_size.width < 0 ∨ s.board_size.height < 0 then ["Invalid board size!"] else [])
  ++ (if s.pattern < 0 ∨ s.pattern > 2 then ["Invalid pattern!"] else [])
  ++ (if s.square_size ≤ 10 / 10000 then ["Invalid square sizes!"] else [])
  ++ (if s.input < 0 ∧ s.input > 2 then ["Invalid Input Type chosen!"] else [])

/-- The constructor `CalibrationSettings::CalibrationSettings(const cv::FileNode&)`: the
node is represented by the values read from it; the constructor stores them, calls
`validateSettings` and returns the object together with the `std::cerr` output. -/
def CalibrationSettings.construct (node : CalibrationSettings) :
    CalibrationSettings × List String :=
  (node, validateSettings node)

/-! ## Reference points -/

/-- The loop `for (auto i = 0; i < n; i++) body(i)` over a threaded state. -/
def forLoop {σ : Type} (n : Nat) (body : Nat → σ → σ) (s : σ) : σ :=
  (List.range n).foldl (fun acc i => body i acc) s

/-- The method `CameraCalibration::fillObjectPoints`: the buffer after the call.  The
bounds are `int`s, so a non-positive bound runs the loop zero times. -/
def fillObjectPoints (s : CalibrationSettings) (object_points_buffer : List Point3f) :
    List Point3f :=
  if s.pattern = CHESS_BOARD then
    forLoop s.board_size.height.toNat (fun i buf =>
      forLoop s.board_size.width.toNat (fun j buf =>
        buf ++ [Point3f.mk ((j : ℚ) * s.square_size) ((i : ℚ) * s.square_size) 0]) buf)
      object_points_buffer
  else if s.pattern = CIRCLE_GRID then
    forLoop s.board_size.height.toNat (fun i buf =>
      forLoop s.board_size.width.toNat (fun j buf =>
        buf ++ [Point3f.mk ((j : ℚ) * s.dist_between_centers)
                  ((i : ℚ) * s.dist_between_centers) 0]) buf)
      object_points_buffer
  else if s.pattern = ASYMMETRIC_CIRCLE_GRID then
    forLoop s.board_size.height.toNat (fun i buf =>
      forLoop s.board_size.width.toNat (fun j buf =>
        buf ++ [Point3f.mk (((2 * j : ℚ) + (1 / 2) * (i : ℚ)) * s.dist_between_centers)
                  ((i : ℚ) * s.dist_between_centers) 0]) buf)
      object_points_buffer
  else
    object_points_buffer

/-- The row-major grid written by two nested loops of `push_back`s. -/
def gridOf {α : Type} (h w : Nat) (f : Nat → Nat → α) : List α :=
  forLoop h (fun i b => forLoop w (fun j b => b ++ [f i j]) b) []


/-! ## External collaborators -/

/-- OpenCV flag `cv::CALIB_CB_ADAPTIVE_THRESH`. -/
def CALIB_CB_ADAPTIVE_THRESH : Int := 1
/-- OpenCV flag `cv::CALIB_CB_NORMALIZE_IMAGE`. -/
def CALIB_CB_NORMALIZE_IMAGE : Int := 2
/-- OpenCV flag `cv::CALIB_CB_FAST_CHECK`. -/
def CALIB_CB_FAST_CHECK : Int := 8
/-- OpenCV flag `cv::CALIB_CB_SYMMETRIC_GRID`. -/
def CALIB_CB_SYMMETRIC_GRID : Int := 1
/-- OpenCV flag `cv::CALIB_CB_ASYMMETRIC_GRID`. -/
def CALIB_CB_ASYMMETRIC_GRID : Int := 2

/-- The library routines the program calls, as functions of their inputs.  `Img` is the
content of a non-empty image, `CvMat` a numeric `cv::Mat`, `Cap` the state of a
`cv::VideoCapture` opened on a file, `R` the field in which `double` values are read.

* `findChessboardCorners image size flags` gives the returned flag and the corner array;
* `cornerSubPix image corners` gives the refined content of the in/out array (window
  `11x11`, zero zone `(-1,-1)`, at most 30 iterations, epsilon `0.0001`);
* `findCirclesGrid image size centers flags` gives the returned flag and the content of
  the output array after the call (`centers` is its content before);
* `calibrateCamera` is the solver: `none` when it raises, else the new camera matrix,
  distortion coefficients, rotation and translation vectors;
* `projectPoints objectPoints rvec tvec cameraMatrix distCoeffs` gives the projected points;
* `norm a b` is `cv::norm(a, b, cv::NORM_L2)` and `sqrt` is `std::sqrt`;
* `isOpened`, `getFrameCount` (`get(CAP_PROP_FRAME_COUNT)`), `setPosFrames`
  (`set(CAP_PROP_POS_FRAMES, ·)`) and `read` are the `cv::VideoCapture` operations, `read`
  giving the returned flag, the frame and the capture state after the call. -/
structure Collab (Img CvMat Cap R : Type) where
  findChessboardCorners : Option Img → Size2i → Int → Bool × List Point2f
  cornerSubPix : Option Img → List Point2f → List Point2f
  findCirclesGrid : Option Img → Size2i → List Point2f → Int → Bool × List Point2f
  calibrateCamera : List (List Point3f) → List (List Point2f) → Size2i → CvMat → List ℚ →
    Int → Option (CvMat × List ℚ × List CvMat × List CvMat)
  projectPoints : List Point3f → CvMat → CvMat → CvMat → List ℚ → List Point2f
  norm : List Point2f → List Point2f → R
  sqrt : R → R
  isOpened : Cap → Bool
  getFrameCount : Cap → Nat
  setPosFrames : Cap → Nat → Cap
  read : Cap → Bool × Option Img × Cap

/-- One entry of a `std::filesystem::directory_iterator`: whether the path is a regular
file, what `cv::imread` returns for it (`none`: no image data) and the
`cv::VideoCapture` constructed on it. -/
structure DirEntry (Img Cap : Type) where
  is_regular_file : Bool
  imread : Option Img
  capture : Cap

/-- The environment of a run: `directory path` is `none` when the path is not a directory
and the listing otherwise; `device id k` is the flag and frame given by the `k`-th call
of `read` on `cv::VideoCapture(id, cv::CAP_ANY)`. -/
structure World (Img Cap : Type) where
  directory : String → Option (List (DirEntry Img Cap))
  device : Int → Nat → Bool × Option Img

/-! ## The calibration object -/

/-- The class `CameraCalibration`.  `solver_calls` is a ghost field: the object and image
point arrays handed to `cv::calibrateCamera` at each of its calls, in call order.  An
entry `none` of `per_capture_projection_error` is a non-finite value. -/
structure CameraCalibration (CvMat R : Type) where
  verbose : Bool
  device_id : Int
  device_id_is_set : Bool
  calib_settings : CalibrationSettings
  object_points : List (List Point3f)
  image_points : List (List Point2f)
  camera_matrix : CvMat
  rvecs : List CvMat
  tvecs : List CvMat
  dist_coeffs : List ℚ
  per_capture_projection_error : List (Option R)
  solver_calls : List (List (List Point3f) × List (List Point2f))

/-- The constructor `CameraCalibration::CameraCalibration(bool, CalibrationSettings)`;
`emptyMat` is the default-constructed `cv::Mat`. -/
def CameraCalibration.create {CvMat R : Type} (emptyMat : CvMat) (verbose_ : Bool)
    (calib_settings_ : CalibrationSettings) : CameraCalibration CvMat R :=
  { verbose := verbose_, device_id := 0, device_id_is_set := false,
    calib_settings := calib_settings_, object_points := [], image_points := [],
    camera_matrix := emptyMat, rvecs := [], tvecs := [], dist_coeffs := [],
    per_capture_projection_error := [], solver_calls := [] }

/-! ## Feature extraction -/

/-- The method `CameraCalibration::findSalientPoints`: the content of `salientPoints`
after the call.  In the chessboard branch the detector writes into the local `corners`,
and the refiner is run on `salientPoints`. -/
def findSalientPoints {Img CvMat Cap R : Type} (cv : Collab Img CvMat Cap R)
    (s : CalibrationSettings) (image : Option Img) (salientPoints : List Point2f) :
    List Point2f :=
  if s.pattern = CHESS_BOARD then
    let found_corners := cv.findChessboardCorners image s.board_size
      (CALIB_CB_ADAPTIVE_THRESH + CALIB_CB_NORMALIZE_IMAGE + CALIB_CB_FAST_CHECK)
    if found_corners.1 then cv.cornerSubPix image salientPoints else salientPoints
  else if s.pattern = CIRCLE_GRID ∨ s.pattern = ASYMMETRIC_CIRCLE_GRID then
    if s.pattern = CIRCLE_GRID then
      (cv.findCirclesGrid image s.board_size salientPoints CALIB_CB_SYMMETRIC_GRID).2
    else
      (cv.findCirclesGrid image s.board_size salientPoints CALIB_CB_ASYMMETRIC_GRID).2
  else
    salientPoints

/-- The flag `found` computed inside `findSalientPoints` for an image (`false` for an
unknown pattern, where no detector runs). -/
def detectorFound {Img CvMat Cap R : Type} (cv : Collab Img CvMat Cap R)
    (s : CalibrationSettings) (image : Option Img) : Bool :=
  if s.pattern = CHESS_BOARD then
    (cv.findChessboardCorners image s.board_size
      (CALIB_CB_ADAPTIVE_THRESH + CALIB_CB_NORMALIZE_IMAGE + CALIB_CB_FAST_CHECK)).1
  else if s.pattern = CIRCLE_GRID then
    (cv.findCirclesGrid image s.board_size [] CALIB_CB_SYMMETRIC_GRID).1
  else if s.pattern = ASYMMETRIC_CIRCLE_GRID then
    (cv.findCirclesGrid image s.board_size [] CALIB_CB_ASYMMETRIC_GRID).1
  else
    false

/-! ## Acquisition -/

/-- The block repeated in every acquisition loop (lines 191-197, 246-252, 282-288 and
299-305): run `findSalientPoints` on a fresh vector and push it, fill a fresh object
point buffer and push it. -/
def processFrame {Img CvMat Cap R : Type} (cv : Collab Img CvMat Cap R)
    (st : CameraCalibration CvMat R) (image : Option Img) : CameraCalibration CvMat R :=
  let salientPoints := findSalientPoints cv st.calib_settings image []
  let st1 := { st with image_points := st.image_points ++ [salientPoints] }
  let object_points_buffer := fillObjectPoints st1.calib_settings []
  { st1 with object_points := st1.object_points ++ [object_points_buffer] }

/-- The loop over the image directory (lines 185-199). -/
def stillImageLoop {Img CvMat Cap R : Type} (cv : Collab Img CvMat Cap R) :
    List (DirEntry Img Cap) → CameraCalibration CvMat R → CameraCalibration CvMat R
  | [], st => st
  | p :: ps, st =>
    if p.is_regular_file then
      match p.imread with
      | none => stillImageLoop cv ps st
      | some img => stillImageLoop cv ps (processFrame cv st (some img))
    else stillImageLoop cv ps st

/-- The call of `cv::calibrateCamera` with `flags = 0` that ends each branch: `.error`
carries the object as it is when the solver raises. -/
def solve {Img CvMat Cap R : Type} (cv : Collab Img CvMat Cap R)
    (st : CameraCalibration CvMat R) :
    Except (CameraCalibration CvMat R) (CameraCalibration CvMat R) :=
  let st1 := { st with solver_calls := st.solver_calls ++ [(st.object_points, st.image_points)] }
  match cv.calibrateCamera st1.object_points st1.image_points st1.calib_settings.board_size
      st1.camera_matrix st1.dist_coeffs 0 with
  | none => .error st1
  | some r => .ok { st1 with camera_matrix := r.1, dist_coeffs := r.2.1,
                             rvecs := r.2.2.1, tvecs := r.2.2.2 }

/-- The loop `for (uint16_t i = 0; i < num_frames; i++)` of the video branch (lines
242-253), run for `n` iterations: every iteration reads once and processes the frame,
whatever `read` returned. -/
def videoFrameLoop {Img CvMat Cap R : Type} (cv : Collab Img CvMat Cap R) :
    Nat → Cap → CameraCalibration CvMat R → CameraCalibration CvMat R × Cap
  | 0, capture, st => (st, capture)
  | n + 1, capture, st =>
    let r := cv.read capture
    videoFrameLoop cv n r.2.2 (processFrame cv st r.2.1)

/-- The index passed to `set(CAP_PROP_POS_FRAMES, ·)` (lines 234-235), in `uint32_t`
arithmetic; `none` is the division by zero. -/
def frameIndex (frame_count_raw num_frames : Nat) : Option Nat :=
  let frame_count := frame_count_raw % 2 ^ 32
  if num_frames = 0 then none
  else some (((frame_count + (2 ^ 32 - 1)) % 2 ^ 32) / num_frames)

/-- Lines 234-253 for one opened video: seek once, then run the frame loop.  The result
is the object and the capture state afterwards, `none` on the division by zero. -/
def sampleVideo {Img CvMat Cap R : Type} (cv : Collab Img CvMat Cap R)
    (capture : Cap) (st : CameraCalibration CvMat R) :
    Option (CameraCalibration CvMat R × Cap) :=
  match frameIndex (cv.getFrameCount capture) st.calib_settings.num_frames with
  | none => none
  | some frame_index =>
    some (videoFrameLoop cv st.calib_settings.num_frames
      (cv.setPosFrames capture frame_index) st)

/-- Ways in which `calibrateCamera` stops without returning. -/
inductive Abort where
  | solver_exception
  | division_by_zero
deriving DecidableEq

/-- The loop over the video directory (lines 217-265); the solver runs after every
opened video. -/
def videoLoop {Img CvMat Cap R : Type} (cv : Collab Img CvMat Cap R) :
    List (DirEntry Img Cap) → CameraCalibration CvMat R →
      Except (Abort × CameraCalibration CvMat R) (CameraCalibration CvMat R)
  | [], st => .ok st
  | p :: ps, st =>
    if p.is_regular_file then
      if !cv.isOpened p.capture then videoLoop cv ps st
      else
        match sampleVideo cv p.capture st with
        | none => .error (Abort.division_by_zero, st)
        | some r =>
          match solve cv r.1 with
          | .error st2 => .error (Abort.solver_exception, st2)
          | .ok st2 => videoLoop cv ps st2
    else videoLoop cv ps st

/-- The live capture loop `for (uint16_t i = 0; i < num_frames; i++)` (lines 275-289 and
292-306).  `grab k` is the outcome of the `k`-th frame request: whether a frame was
obtained, and the frame.  A failed request runs `--i; continue;`, both in `uint16_t`.
The loop need not end, so it is run with `fuel` iterations at most; the result is the
object and the number of frame requests made, `none` when the fuel runs out. -/
def liveLoop {Img CvMat Cap R : Type} (cv : Collab Img CvMat Cap R)
    (grab : Nat → Bool × Option Img) :
    Nat → Nat → Nat → CameraCalibration CvMat R → Option (CameraCalibration CvMat R × Nat)
  | 0, _, _, _ => none
  | fuel + 1, i, k, st =>
    if i < st.calib_settings.num_frames then
      let r := grab k
      if !r.1 then
        let i1 := (i + (2 ^ 16 - 1)) % 2 ^ 16
        liveLoop cv grab fuel ((i1 + 1) % 2 ^ 16) (k + 1) st
      else
        liveLoop cv grab fuel ((i + 1) % 2 ^ 16) (k + 1) (processFrame cv st r.2)
    else some (st, k)

/-- Frame requests of the callback loop: `getImageFromSDK(handle)` succeeded when the
image has data. -/
def sdkGrab {Img : Type} (getImageFromSDK : Nat → Option Img) (k : Nat) :
    Bool × Option Img :=
  ((getImageFromSDK k).isSome, getImageFromSDK k)

/-- The method `CameraCalibration::calibrateCamera`.  `getImageFromSDK` is `none` for an
empty `std::function`, else the image returned by each successive call.  The outer
`Option` is `none` when the live loop runs out of fuel. -/
def calibrateCamera {Img CvMat Cap R : Type} (cv : Collab Img CvMat Cap R)
    (w : World Img Cap) (getImageFromSDK : Option (Nat → Option Img)) (fuel : Nat)
    (st : CameraCalibration CvMat R) :
    Option (Except (Abort × CameraCalibration CvMat R) (CameraCalibration CvMat R)) :=
  if st.calib_settings.input = CAPTURED_IMAGES then
    match w.directory st.calib_settings.image_folder with
    | none => some (.ok st)
    | some listing =>
      match solve cv (stillImageLoop cv listing st) with
      | .error st2 => some (.error (Abort.solver_exception, st2))
      | .ok st2 => some (.ok st2)
  else if st.calib_settings.input = CAPTURED_VIDEO then
    match w.directory st.calib_settings.video_folder with
    | none => some (.ok st)
    | some listing => some (videoLoop cv listing st)
  else if st.calib_settings.input = LIVE_STREAM then
    let grab := match getImageFromSDK with
      | none => w.device st.device_id
      | some f => sdkGrab f
    match liveLoop cv grab fuel 0 0 st with
    | none => none
    | some r =>
      match solve cv r.1 with
      | .error st2 => some (.error (Abort.solver_exception, st2))
      | .ok st2 => some (.ok st2)
  else some (.ok st)

/-! ## Reprojection errors -/

/-- The call `v.resize(n)` on a vector, new entries being `d`. -/
def resize {α : Type} (v : List α) (n : Nat) (d : α) : List α :=
  v.take n ++ List.replicate (n - v.length) d

/-- A `double` divided by an unsigned count: non-finite when the count is zero. -/
def divCount {R : Type} [Field R] (a : R) (n : Nat) : Option R :=
  if n = 0 then none else some (a / (n : R))

/-- The loop of `computeReprojectionErrors` (lines 330-345), run for `n` iterations from
index `i`, on the per-capture vector, `total_error` and `total_points`.  Reading a
vector past its end is `none`. -/
def reprojectionLoop {Img CvMat Cap R : Type} [Field R] (cv : Collab Img CvMat Cap R)
    (st : CameraCalibration CvMat R) :
    Nat → Nat → List (Option R) → R → Nat → Option (List (Option R) × R × Nat)
  | 0, _, per_capture, total_error, total_points =>
    some (per_capture, total_error, total_points)
  | n + 1, i, per_capture, total_error, total_points =>
    match st.object_points[i]?, st.rvecs[i]?, st.tvecs[i]?, st.image_points[i]? with
    | some obj, some rvec, some tvec, some img =>
      let points_per_capture := obj.length
      let projected_image_points :=
        cv.projectPoints obj rvec tvec st.camera_matrix st.dist_coeffs
      let error := cv.norm img projected_image_points
      reprojectionLoop cv st n (i + 1)
        (per_capture.set i ((divCount (error * error) points_per_capture).map cv.sqrt))
        (total_error + error * error) (total_points + points_per_capture)
    | _, _, _, _ => none

/-- The method `CameraCalibration::computeReprojectionErrors`: the object afterwards and
the returned value (`none` inside: non-finite), or `none` when a vector is read past its
end. -/
def computeReprojectionErrors {Img CvMat Cap R : Type} [Field R]
    (cv : Collab Img CvMat Cap R) (st : CameraCalibration CvMat R) :
    Option (CameraCalibration CvMat R × Option R) :=
  match reprojectionLoop cv st st.object_points.length 0
      (resize st.per_capture_projection_error st.object_points.length (some 0)) 0 0 with
  | none => none
  | some r =>
    some ({ st with per_capture_projection_error := r.1 },
          (divCount r.2.1 r.2.2).map cv.sqrt)

/-- Sum of squared coordinate differences of two point arrays, entry by entry. -/
def sumSqDiff {R : Type} [Field R] : List Point2f → List Point2f → R
  | a :: as, b :: bs => ((a.x - b.x : ℚ) : R) ^ 2 + ((a.y - b.y : ℚ) : R) ^ 2 + sumSqDiff as bs
  | _, _ => 0

/-- The L2 norm of the difference of two point arrays, `cv::norm(a, b, cv::NORM_L2)` on
arrays of equal size, over a given square root. -/
def normL2 {R : Type} [Field R] (sqrt : R → R) (a b : List Point2f) : R :=
  sqrt (sumSqDiff a b)

/-! ## Descriptions of what the loops process -/

/-- The block `processFrame` run on a sequence of frames, in order. -/
def processFrames {Img CvMat Cap R : Type} (cv : Collab Img CvMat Cap R)
    (st : CameraCalibration CvMat R) (frames : List (Option Img)) :
    CameraCalibration CvMat R :=
  frames.foldl (processFrame cv) st

/-- The images of the regular files of a listing that decode, in listing order. -/
def decodableImages {Img Cap : Type} (listing : List (DirEntry Img Cap)) : List Img :=
  listing.filterMap (fun p => if p.is_regular_file then p.imread else none)

/-- The frames returned by `n` successive calls of `read`, in order. -/
def videoReads {Img CvMat Cap R : Type} (cv : Collab Img CvMat Cap R) :
    Nat → Cap → List (Option Img)
  | 0, _ => []
  | n + 1, capture => (cv.read capture).2.1 :: videoReads cv n (cv.read capture).2.2

/-- The capture state after `n` successive calls of `read`. -/
def afterReads {Img CvMat Cap R : Type} (cv : Collab Img CvMat Cap R) :
    Nat → Cap → Cap
  | 0, capture => capture
  | n + 1, capture => afterReads cv n (cv.read capture).2.2

/-- The frames of the successful ones among the frame requests `k, ..., k + n - 1`, in
order of arrival. -/
def grabbed {Img : Type} (grab : Nat → Bool × Option Img) (k n : Nat) : List (Option Img) :=
  ((List.range' k n).filter (fun c => (grab c).1)).map (fun c => (grab c).2)

/-- The norm `E_i` that `computeReprojectionErrors` computes for capture `i`: the L2 norm
of the difference between the observed image points and the projection of the object
points; `none` when a vector has no entry `i`. -/
def captureError {Img CvMat Cap R : Type} (cv : Collab Img CvMat Cap R)
    (st : CameraCalibration CvMat R) (i : Nat) : Option R :=
  match st.object_points[i]?, st.rvecs[i]?, st.tvecs[i]?, st.image_points[i]? with
  | some obj, some rvec, some tvec, some img =>
    some (cv.norm img (cv.projectPoints obj rvec tvec st.camera_matrix st.dist_coeffs))
  | _, _, _, _ => none

/-! ## Values used in worked examples -/

/-- Settings of a worked example: the given pattern, input kind, board and frame budget,
with unit lengths `square_size = 1/40` and `dist_between_centers = 3/100`. -/
def exampleSettings (pattern input rows columns : Int) (num_frames : Nat) :
    CalibrationSettings :=
  { board_size := Size2i.mk columns rows, square_size := 1 / 40,
    dist_between_centers := 3 / 100, input := input, pattern := pattern,
    write_extrinsic_params := false, write_detected_feature_points := false,
    write_3d_grid_points := false, show_undistorted_image := false,
    flip_around_horizontal_axis := false, no_tangential_distortion := false,
    fix_principal_point := false, fix_k1 := false, fix_k2 := false, fix_k3 := false,
    fix_k4 := false, fix_k5 := false, image_folder := "images",
    capture_store_path := "captures", video_folder := "videos",
    fix_aspect_ratio := false, delay := 0, num_frames := num_frames }

/-- Detector of the worked examples: images are numbered, the pattern is found on the
even ones, with the `height * width` grid points `(j, i)` in row-major order; nothing is
found on odd or empty images, and no point is given. -/
def exampleDetector (image : Option Nat) (size : Size2i) : Bool × List Point2f :=
  match image with
  | some n =>
    if n % 2 = 0 then
      (true, gridOf size.height.toNat size.width.toNat (fun i j => Point2f.mk j i))
    else (false, [])
  | none => (false, [])

/-- Collaborators of the worked examples: the detector above for both pattern families, a
refiner that leaves the corners where they are, a solver that raises on an empty input,
a projector that drops `z`, the L2 norm over the given square root, and videos that are
lists of numbered frames with a read position. -/
def exampleCollab {R : Type} [Field R] (sqrt : R → R) : Collab Nat Unit (List Nat × Nat) R :=
  { findChessboardCorners := fun image size _ => exampleDetector image size
    cornerSubPix := fun _ corners => corners
    findCirclesGrid := fun image size _ _ => exampleDetector image size
    calibrateCamera := fun objs _ _ _ _ _ =>
      if objs.isEmpty then none
      else some ((), [], objs.map (fun _ => ()), objs.map (fun _ => ()))
    projectPoints := fun obj _ _ _ _ => obj.map (fun p => Point2f.mk p.x p.y)
    norm := normL2 sqrt
    sqrt := sqrt
    isOpened := fun c => !c.1.isEmpty
    getFrameCount := fun c => c.1.length
    setPosFrames := fun c i => (c.1, i)
    read := fun c =>
      match c.1[c.2]? with
      | some f => (true, some f, (c.1, c.2 + 1))
      | none => (false, none, c) }

/-- A freshly constructed calibration object of the worked examples. -/
def exampleObject {R : Type} (settings : CalibrationSettings) : CameraCalibration Unit R :=
  CameraCalibration.create () false settings

/-- A regular file of the worked examples that decodes to the numbered image. -/
def imageFile (n : Nat) : DirEntry Nat (List Nat × Nat) :=
  { is_regular_file := true, imread := some n, capture := ([], 0) }

/-- A regular file of the worked examples that does not decode. -/
def brokenFile : DirEntry Nat (List Nat × Nat) :=
  { is_regular_file := true, imread := none, capture := ([], 0) }

/-- A frame source of the worked examples: the first call gives no frame, call `k > 0`
gives the image numbered `2 * k`. -/
def exampleStream (k : Nat) : Option Nat :=
  if k = 0 then none else some (2 * k)

/-- A video of the worked examples: 101 frames numbered from 0, read position 0. -/
def exampleVideo : List Nat × Nat := (List.range 101, 0)

/-- An object of the worked examples holding two solved captures: 4 points observed one
unit to the right of their projections, and 6 points of which the first is observed
three units above its projection. -/
def exampleCaptures {R : Type} : CameraCalibration Unit R :=
  { exampleObject (exampleSettings CIRCLE_GRID CAPTURED_IMAGES 2 2 5) with
    object_points :=
      [[Point3f.mk 0 0 0, Point3f.mk 1 0 0, Point3f.mk 0 1 0, Point3f.mk 1 1 0],
       [Point3f.mk 0 0 0, Point3f.mk 1 0 0, Point3f.mk 2 0 0, Point3f.mk 0 1 0,
        Point3f.mk 1 1 0, Point3f.mk 2 1 0]]
    image_points :=
      [[Point2f.mk 1 0, Point2f.mk 2 0, Point2f.mk 1 1, Point2f.mk 2 1],
       [Point2f.mk 0 3, Point2f.mk 1 0, Point2f.mk 2 0, Point2f.mk 0 1,
        Point2f.mk 1 1, Point2f.mk 2 1]]
    rvecs := [(), ()]
    tvecs := [(), ()] }

/-- An object of the worked examples holding two solved captures observed exactly at
their projections. -/
def exampleExactCaptures {R : Type} : CameraCalibration Unit R :=
  { exampleObject (exampleSettings CIRCLE_GRID CAPTURED_IMAGES 2 2 5) with
    object_points :=
      [[Point3f.mk 0 0 0, Point3f.mk 1 0 0, Point3f.mk 0 1 0, Point3f.mk 1 1 0],
       [Point3f.mk 0 0 0, Point3f.mk 1 0 0]]
    image_points :=
      [[Point2f.mk 0 0, Point2f.mk 1 0, Point2f.mk 0 1, Point2f.mk 1 1],
       [Point2f.mk 0 0, Point2f.mk 1 0]]
    rvecs := [(), ()]
    tvecs := [(), ()] }

/-- An object of the worked examples holding one solved capture without any point, as
acquired with a board of 0 rows. -/
def exampleEmptyCapture {R : Type} : CameraCalibration Unit R :=
  { exampleObject (exampleSettings CIRCLE_GRID CAPTURED_IMAGES 0 3 5) with
    object_points := [[]]
    image_points := [[]]
    rvecs := [()]
    tvecs := [()] }

/-- An environment of the worked examples: every path is a directory with the given
listing, and the local device delivers the frames of `exampleStream`. -/
def exampleWorld (listing : List (DirEntry Nat (List Nat × Nat))) :
    World Nat (List Nat × Nat) :=
  { directory := fun _ => some listing
    device := fun _ k => sdkGrab exampleStream k }

/-- Collaborators of the worked examples whose solver accepts any input, the empty one
included, and gives no rotation or translation vector. -/
def lenientCollab : Collab Nat Unit (List Nat × Nat) ℚ :=
  { exampleCollab (id : ℚ → ℚ) with
    calibrateCamera := fun _ _ _ _ _ _ => some ((), [], [], []) }

/-! # Verification -/

/-! ## Lemmas on the loops -/

theorem forLoop_zero {σ : Type} (body : Nat → σ → σ) (s : σ) : forLoop 0 body s = s := by
  simp [forLoop]

theorem forLoop_succ {σ : Type} (n : Nat) (body : Nat → σ → σ) (s : σ) :
    forLoop (n + 1) body s = body n (forLoop n body s) := by
  simp [forLoop, List.range_succ, List.foldl_append]

/-- A loop of `push_back`s appends the pushed values in index order. -/
theorem forLoop_push {α : Type} (n : Nat) (f : Nat → α) (buf : List α) :
    forLoop n (fun j b => b ++ [f j]) buf = buf ++ (List.range n).map f := by
  induction n with
  | zero => simp [forLoop_zero]
  | succ n ih => simp [forLoop_succ, ih, List.range_succ]

theorem forLoop_grid {α : Type} (h w : Nat) (f : Nat → Nat → α) (buf : List α) :
    forLoop h (fun i b => forLoop w (fun j b => b ++ [f i j]) b) buf
      = buf ++ gridOf h w f := by
  induction h with
  | zero => simp [gridOf, forLoop_zero]
  | succ h ih =>
    simp only [gridOf] at ih ⊢
    rw [forLoop_succ, forLoop_succ, ih, forLoop_push, forLoop_push]
    simp

theorem gridOf_succ {α : Type} (h w : Nat) (f : Nat → Nat → α) :
    gridOf (h + 1) w f = gridOf h w f ++ (List.range w).map (f h) := by
  simp only [gridOf]
  rw [forLoop_succ, forLoop_push]

theorem gridOf_length {α : Type} (h w : Nat) (f : Nat → Nat → α) :
    (gridOf h w f).length = h * w := by
  induction h with
  | zero => simp [gridOf, forLoop_zero]
  | succ h ih => rw [gridOf_succ]; simp [ih, Nat.succ_mul]

theorem gridOf_get {α : Type} (h w : Nat) (f : Nat → Nat → α) (i j : Nat)
    (hi : i < h) (hj : j < w) : (gridOf h w f)[i * w + j]? = some (f i j) := by
  induction h with
  | zero => omega
  | succ h ih =>
    rw [gridOf_succ]
    by_cases hih : i < h
    · have hlt : i * w + j < (gridOf h w f).length := by
        rw [gridOf_length]
        calc i * w + j < i * w + w := by omega
          _ = (i + 1) * w := by rw [Nat.succ_mul]
          _ ≤ h * w := Nat.mul_le_mul_right w hih
      rw [List.getElem?_append_left hlt]
      exact ih hih
    · have hih2 : i = h := by omega
      subst hih2
      have hge : (gridOf i w f).length ≤ i * w + j := by rw [gridOf_length]; omega
      rw [List.getElem?_append_right hge, gridOf_length]
      simp [hj]

theorem gridOf_mem {α : Type} (h w : Nat) (f : Nat → Nat → α) (p : α)
    (hp : p ∈ gridOf h w f) : ∃ i j, i < h ∧ j < w ∧ p = f i j := by
  induction h with
  | zero => simp [gridOf, forLoop_zero] at hp
  | succ h ih =>
    rw [gridOf_succ, List.mem_append] at hp
    rcases hp with hp | hp
    · obtain ⟨i, j, hi, hj, e⟩ := ih hp
      exact ⟨i, j, by omega, hj, e⟩
    · simp only [List.mem_map, List.mem_range] at hp
      obtain ⟨j, hj, e⟩ := hp
      exact ⟨h, j, by omega, hj, e.symm⟩

/-! ## C1: reference points -/

/-- What `fillObjectPoints` does to any buffer, for each of the three patterns. -/
theorem fillObjectPoints_eq (s : CalibrationSettings) (buf : List Point3f) :
    fillObjectPoints s buf =
      if s.pattern = CHESS_BOARD then
        buf ++ gridOf s.board_size.height.toNat s.board_size.width.toNat (fun i j =>
          Point3f.mk ((j : ℚ) * s.square_size) ((i : ℚ) * s.square_size) 0)
      else if s.pattern = CIRCLE_GRID then
        buf ++ gridOf s.board_size.height.toNat s.board_size.width.toNat (fun i j =>
          Point3f.mk ((j : ℚ) * s.dist_between_centers) ((i : ℚ) * s.dist_between_centers) 0)
      else if s.pattern = ASYMMETRIC_CIRCLE_GRID then
        buf ++ gridOf s.board_size.height.toNat s.board_size.width.toNat (fun i j =>
          Point3f.mk (((2 * j : ℚ) + (1 / 2) * (i : ℚ)) * s.dist_between_centers)
            ((i : ℚ) * s.dist_between_centers) 0)
      else buf := by
  unfold fillObjectPoints
  split_ifs <;> first | rfl | exact forLoop_grid _ _ _ _

/-- The number of points written by `fillObjectPoints` for a supported pattern. -/
theorem fillObjectPoints_length (s : CalibrationSettings)
    (hp : s.pattern = CHESS_BOARD ∨ s.pattern = CIRCLE_GRID ∨
      s.pattern = ASYMMETRIC_CIRCLE_GRID) :
    (fillObjectPoints s []).length = s.board_size.height.toNat * s.board_size.width.toNat := by
  rw [fillObjectPoints_eq]
  split_ifs with h1 h2 h3
  · simp [gridOf_length]
  · simp [gridOf_length]
  · simp [gridOf_length]
  · rcases hp with hp | hp | hp <;> contradiction

/-- C1: for each of the three pattern kinds and every `rows > 0`, `columns > 0`,
`fillObjectPoints` applied to an empty buffer yields exactly `rows * columns` points, all
with `z = 0`, in row-major order: the element at index `i * columns + j` is
`(j * square_size, i * square_size, 0)` for `CHESS_BOARD`,
`(j * d, i * d, 0)` for `CIRCLE_GRID` and `((2 j + i / 2) * d, i * d, 0)` for
`ASYMMETRIC_CIRCLE_GRID`, with `d = dist_between_centers` and exact arithmetic. -/
theorem fillObjectPoints_row_major (s : CalibrationSettings) (rows columns : Nat)
    (hrows : 0 < rows) (hcolumns : 0 < columns)
    (hh : s.board_size.height = (rows : Int)) (hw : s.board_size.width = (columns : Int))
    (hp : s.pattern = CHESS_BOARD ∨ s.pattern = CIRCLE_GRID ∨
      s.pattern = ASYMMETRIC_CIRCLE_GRID) :
    (fillObjectPoints s []).length = rows * columns ∧
    (∀ p ∈ fillObjectPoints s [], p.z = 0) ∧
    ∀ i j : Nat, i < rows → j < columns →
      (fillObjectPoints s [])[i * columns + j]? = some
        (if s.pattern = CHESS_BOARD then
          Point3f.mk ((j : ℚ) * s.square_size) ((i : ℚ) * s.square_size) 0
        else if s.pattern = CIRCLE_GRID then
          Point3f.mk ((j : ℚ) * s.dist_between_centers) ((i : ℚ) * s.dist_between_centers) 0
        else
          Point3f.mk ((2 * (j : ℚ) + (1 / 2) * (i : ℚ)) * s.dist_between_centers)
            ((i : ℚ) * s.dist_between_centers) 0) := by
  have hrows0 : 0 < rows := hrows
  have hcolumns0 : 0 < columns := hcolumns
  have e := fillObjectPoints_eq s []
  rw [hh, hw] at e
  simp only [Int.toNat_ofNat, List.nil_append] at e
  rw [e]
  refine ⟨?_, ?_, ?_⟩
  · split_ifs with h1 h2 h3
    · exact gridOf_length _ _ _
    · exact gridOf_length _ _ _
    · exact gridOf_length _ _ _
    · rcases hp with hp | hp | hp <;> contradiction
  · intro p hmem
    split_ifs at hmem with h1 h2 h3
    · obtain ⟨i, j, -, -, rfl⟩ := gridOf_mem _ _ _ p hmem; rfl
    · obtain ⟨i, j, -, -, rfl⟩ := gridOf_mem _ _ _ p hmem; rfl
    · obtain ⟨i, j, -, -, rfl⟩ := gridOf_mem _ _ _ p hmem; rfl
    · simp at hmem
  · intro i j hi hj
    split_ifs with h1 h2 h3
    · exact gridOf_get _ _ _ i j hi hj
    · exact gridOf_get _ _ _ i j hi hj
    · exact gridOf_get _ _ _ i j hi hj
    · rcases hp with hp | hp | hp <;> contradiction

/-- Witness of C1: an asymmetric circle grid of 2 rows and 3 columns. -/
theorem fillObjectPoints_row_major_witness :
    (fillObjectPoints (exampleSettings ASYMMETRIC_CIRCLE_GRID LIVE_STREAM 2 3 5) []).length
        = 2 * 3 ∧
    (∀ p ∈ fillObjectPoints (exampleSettings ASYMMETRIC_CIRCLE_GRID LIVE_STREAM 2 3 5) [],
        p.z = 0) ∧
    (fillObjectPoints (exampleSettings ASYMMETRIC_CIRCLE_GRID LIVE_STREAM 2 3 5) [])[1 * 3 + 2]?
        = some (Point3f.mk (27 / 200) (3 / 100) 0) := by
  have h := fillObjectPoints_row_major (exampleSettings ASYMMETRIC_CIRCLE_GRID LIVE_STREAM 2 3 5)
    2 3 (by decide) (by decide) rfl rfl (Or.inr (Or.inr rfl))
  refine ⟨h.1, h.2.1, ?_⟩
  have h3 := h.2.2 1 2 (by decide) (by decide)
  rw [h3]
  simp [exampleSettings, ASYMMETRIC_CIRCLE_GRID, CHESS_BOARD, CIRCLE_GRID]
  norm_num

/-! ## C7: settings validation -/

/-- Construction always returns the object holding the values read, whatever they are. -/
theorem construct_returns (node : CalibrationSettings) :
    (CalibrationSettings.construct node).1 = node := rfl

/-- C7 (behaviour of the code at the failing input): for a board of 0 rows and 0 columns
and the input kind 7, `validateSettings` returns without writing a single line, and the
constructor completes with these values. -/
theorem validateSettings_accepts_invalid :
    validateSettings (exampleSettings CHESS_BOARD 7 0 0 5) = [] ∧
    (CalibrationSettings.construct (exampleSettings CHESS_BOARD 7 0 0 5)).1.board_size
      = Size2i.mk 0 0 ∧
    (CalibrationSettings.construct (exampleSettings CHESS_BOARD 7 0 0 5)).1.input = 7 := by
  refine ⟨?_, rfl, rfl⟩
  simp [validateSettings, exampleSettings, CHESS_BOARD]
  norm_num

/-! ## C9: feature extraction -/

/-- For the circle-grid patterns `findSalientPoints` hands back the detector's output. -/
theorem findSalientPoints_circles {Img CvMat Cap R : Type} (cv : Collab Img CvMat Cap R)
    (s : CalibrationSettings) (image : Option Img) (pts : List Point2f)
    (hp : s.pattern = CIRCLE_GRID ∨ s.pattern = ASYMMETRIC_CIRCLE_GRID) :
    findSalientPoints cv s image pts =
      (cv.findCirclesGrid image s.board_size pts
        (if s.pattern = CIRCLE_GRID then CALIB_CB_SYMMETRIC_GRID
         else CALIB_CB_ASYMMETRIC_GRID)).2 := by
  unfold findSalientPoints
  have hne : s.pattern ≠ CHESS_BOARD := by
    rcases hp with hp | hp <;> rw [hp] <;> decide
  rw [if_neg hne, if_pos hp]
  split_ifs <;> rfl

/-- For the chessboard pattern, whatever the detector found, `findSalientPoints` hands
back no point when the refiner keeps the size of the array it is given. -/
theorem findSalientPoints_chessboard_empty {Img CvMat Cap R : Type}
    (cv : Collab Img CvMat Cap R) (s : CalibrationSettings) (image : Option Img)
    (hp : s.pattern = CHESS_BOARD)
    (hrefine : ∀ img pts, (cv.cornerSubPix img pts).length = pts.length) :
    (findSalientPoints cv s image []).length = 0 := by
  unfold findSalientPoints
  rw [if_pos hp]
  dsimp only
  split_ifs
  · simpa using hrefine image []
  · rfl

/-- C9 (behaviour of the code at the failing input): on a 2 x 2 chessboard and an image
on which the detector reports found with its 4 corners, `findSalientPoints` hands back an
empty sequence. -/
theorem findSalientPoints_chessboard_drops_corners :
    ((exampleCollab (id : ℚ → ℚ)).findChessboardCorners (some 0)
        (exampleSettings CHESS_BOARD CAPTURED_IMAGES 2 2 5).board_size
        (CALIB_CB_ADAPTIVE_THRESH + CALIB_CB_NORMALIZE_IMAGE + CALIB_CB_FAST_CHECK)).1 = true ∧
    ((exampleCollab (id : ℚ → ℚ)).findChessboardCorners (some 0)
        (exampleSettings CHESS_BOARD CAPTURED_IMAGES 2 2 5).board_size
        (CALIB_CB_ADAPTIVE_THRESH + CALIB_CB_NORMALIZE_IMAGE + CALIB_CB_FAST_CHECK)).2.length
      = 2 * 2 ∧
    findSalientPoints (exampleCollab (id : ℚ → ℚ))
        (exampleSettings CHESS_BOARD CAPTURED_IMAGES 2 2 5) (some 0) [] = [] := by
  refine ⟨rfl, ?_, ?_⟩
  · simp [exampleCollab, exampleDetector, exampleSettings, gridOf_length]
  · simp [findSalientPoints, exampleCollab, exampleDetector, exampleSettings]

/-! ## The acquisition block -/

theorem processFrame_calib_settings {Img CvMat Cap R : Type} (cv : Collab Img CvMat Cap R)
    (st : CameraCalibration CvMat R) (image : Option Img) :
    (processFrame cv st image).calib_settings = st.calib_settings := rfl

theorem processFrame_image_points {Img CvMat Cap R : Type} (cv : Collab Img CvMat Cap R)
    (st : CameraCalibration CvMat R) (image : Option Img) :
    (processFrame cv st image).image_points
      = st.image_points ++ [findSalientPoints cv st.calib_settings image []] := rfl

theorem processFrame_object_points {Img CvMat Cap R : Type} (cv : Collab Img CvMat Cap R)
    (st : CameraCalibration CvMat R) (image : Option Img) :
    (processFrame cv st image).object_points
      = st.object_points ++ [fillObjectPoints st.calib_settings []] := rfl

theorem processFrames_nil {Img CvMat Cap R : Type} (cv : Collab Img CvMat Cap R)
    (st : CameraCalibration CvMat R) : processFrames cv st [] = st := rfl

theorem processFrames_cons {Img CvMat Cap R : Type} (cv : Collab Img CvMat Cap R)
    (st : CameraCalibration CvMat R) (f : Option Img) (fs : List (Option Img)) :
    processFrames cv st (f :: fs) = processFrames cv (processFrame cv st f) fs := rfl

theorem processFrames_calib_settings {Img CvMat Cap R : Type} (cv : Collab Img CvMat Cap R)
    (frames : List (Option Img)) (st : CameraCalibration CvMat R) :
    (processFrames cv st frames).calib_settings = st.calib_settings := by
  induction frames generalizing st with
  | nil => rfl
  | cons f fs ih => rw [processFrames_cons, ih, processFrame_calib_settings]

theorem processFrames_image_points {Img CvMat Cap R : Type} (cv : Collab Img CvMat Cap R)
    (frames : List (Option Img)) (st : CameraCalibration CvMat R) :
    (processFrames cv st frames).image_points
      = st.image_points ++ frames.map (fun f => findSalientPoints cv st.calib_settings f []) := by
  induction frames generalizing st with
  | nil => simp [processFrames_nil]
  | cons f fs ih =>
    rw [processFrames_cons, ih, processFrame_image_points, processFrame_calib_settings]
    simp

theorem processFrames_object_points {Img CvMat Cap R : Type} (cv : Collab Img CvMat Cap R)
    (frames : List (Option Img)) (st : CameraCalibration CvMat R) :
    (processFrames cv st frames).object_points
      = st.object_points ++ frames.map (fun _ => fillObjectPoints st.calib_settings []) := by
  induction frames generalizing st with
  | nil => simp [processFrames_nil]
  | cons f fs ih =>
    rw [processFrames_cons, ih, processFrame_object_points, processFrame_calib_settings]
    simp

/-! ## The three loops as runs of the acquisition block -/

theorem stillImageLoop_eq {Img CvMat Cap R : Type} (cv : Collab Img CvMat Cap R)
    (listing : List (DirEntry Img Cap)) (st : CameraCalibration CvMat R) :
    stillImageLoop cv listing st
      = processFrames cv st ((decodableImages listing).map some) := by
  induction listing generalizing st with
  | nil => rfl
  | cons p ps ih =>
    unfold stillImageLoop
    by_cases hreg : p.is_regular_file = true
    · rw [if_pos hreg]
      cases himg : p.imread with
      | none => simp [decodableImages, List.filterMap_cons, hreg, himg, ih]
      | some img =>
        simp only [decodableImages, List.filterMap_cons, hreg, himg, if_true, List.map_cons,
          processFrames_cons]
        exact ih _
    · rw [if_neg hreg]
      simp [decodableImages, List.filterMap_cons, hreg, ih]

theorem videoFrameLoop_eq {Img CvMat Cap R : Type} (cv : Collab Img CvMat Cap R)
    (n : Nat) (capture : Cap) (st : CameraCalibration CvMat R) :
    videoFrameLoop cv n capture st
      = (processFrames cv st (videoReads cv n capture), afterReads cv n capture) := by
  induction n generalizing capture st with
  | zero => rfl
  | succ n ih =>
    unfold videoFrameLoop
    simp only [videoReads, afterReads, processFrames_cons]
    exact ih _ _

theorem videoReads_length {Img CvMat Cap R : Type} (cv : Collab Img CvMat Cap R)
    (n : Nat) (capture : Cap) : (videoReads cv n capture).length = n := by
  induction n generalizing capture with
  | zero => rfl
  | succ n ih => simp [videoReads, ih]

theorem grabbed_zero {Img : Type} (grab : Nat → Bool × Option Img) (k : Nat) :
    grabbed grab k 0 = [] := rfl

theorem grabbed_succ_of_fail {Img : Type} (grab : Nat → Bool × Option Img) (k n : Nat)
    (h : (grab k).1 = false) : grabbed grab k (n + 1) = grabbed grab (k + 1) n := by
  simp [grabbed, List.range'_succ, List.filter_cons, h]

theorem grabbed_succ_of_ok {Img : Type} (grab : Nat → Bool × Option Img) (k n : Nat)
    (h : (grab k).1 = true) :
    grabbed grab k (n + 1) = (grab k).2 :: grabbed grab (k + 1) n := by
  simp [grabbed, List.range'_succ, List.filter_cons, h]

/-- A failed frame request leaves the object and the loop index as they are: the next
iteration runs at the same index on the next request. -/
theorem liveLoop_retry {Img CvMat Cap R : Type} (cv : Collab Img CvMat Cap R)
    (grab : Nat → Bool × Option Img) (fuel i k : Nat) (st : CameraCalibration CvMat R)
    (hi : i < st.calib_settings.num_frames) (h16 : i < 2 ^ 16)
    (hfail : (grab k).1 = false) :
    liveLoop cv grab (fuel + 1) i k st = liveLoop cv grab fuel i (k + 1) st := by
  have hidx : ((i + (2 ^ 16 - 1)) % 2 ^ 16 + 1) % 2 ^ 16 = i := by
    norm_num at h16 ⊢
    omega
  rw [liveLoop, if_pos hi]
  simp only [hfail, Bool.not_false, if_true, hidx]

/-- A successful frame request processes the frame and moves to the next index. -/
theorem liveLoop_advance {Img CvMat Cap R : Type} (cv : Collab Img CvMat Cap R)
    (grab : Nat → Bool × Option Img) (fuel i k : Nat) (st : CameraCalibration CvMat R)
    (hi : i < st.calib_settings.num_frames) (h16 : st.calib_settings.num_frames < 2 ^ 16)
    (hok : (grab k).1 = true) :
    liveLoop cv grab (fuel + 1) i k st
      = liveLoop cv grab fuel (i + 1) (k + 1) (processFrame cv st (grab k).2) := by
  have hidx : (i + 1) % 2 ^ 16 = i + 1 := by
    norm_num at h16 ⊢
    omega
  rw [liveLoop, if_pos hi]
  simp only [hok, Bool.not_true, hidx]
  rfl

theorem liveLoop_done {Img CvMat Cap R : Type} (cv : Collab Img CvMat Cap R)
    (grab : Nat → Bool × Option Img) (fuel i k : Nat) (st : CameraCalibration CvMat R)
    (hi : ¬ i < st.calib_settings.num_frames) :
    liveLoop cv grab (fuel + 1) i k st = some (st, k) := by
  rw [liveLoop, if_neg hi]

/-- What the live loop returns when it returns: the frames of the successful requests
were processed in arrival order, and there are as many as indices were left. -/
theorem liveLoop_result {Img CvMat Cap R : Type} (cv : Collab Img CvMat Cap R)
    (grab : Nat → Bool × Option Img) (N : Nat) (hN : N < 2 ^ 16) :
    ∀ (fuel i k : Nat) (st st' : CameraCalibration CvMat R) (k' : Nat),
      st.calib_settings.num_frames = N → i ≤ N →
      liveLoop cv grab fuel i k st = some (st', k') →
      k ≤ k' ∧ st' = processFrames cv st (grabbed grab k (k' - k)) ∧
        (grabbed grab k (k' - k)).length = N - i := by
  intro fuel
  induction fuel with
  | zero => intro i k st st' k' _ _ h; simp [liveLoop] at h
  | succ fuel ih =>
    intro i k st st' k' hst hi h
    by_cases hlt : i < st.calib_settings.num_frames
    · cases hg : (grab k).1 with
      | false =>
        rw [liveLoop_retry cv grab fuel i k st hlt (by omega) hg] at h
        obtain ⟨hk, hst', hlen⟩ := ih i (k + 1) st st' k' hst hi h
        have e : k' - k = (k' - (k + 1)) + 1 := by omega
        rw [e, grabbed_succ_of_fail grab k _ hg]
        exact ⟨by omega, hst', hlen⟩
      | true =>
        rw [liveLoop_advance cv grab fuel i k st hlt (by omega) hg] at h
        obtain ⟨hk, hst', hlen⟩ := ih (i + 1) (k + 1) (processFrame cv st (grab k).2) st' k'
          (by rw [processFrame_calib_settings]; exact hst) (by omega) h
        have e : k' - k = (k' - (k + 1)) + 1 := by omega
        rw [e, grabbed_succ_of_ok grab k _ hg, processFrames_cons]
        refine ⟨by omega, hst', ?_⟩
        rw [List.length_cons, hlen]
        omega
    · rw [liveLoop_done cv grab fuel i k st hlt] at h
      simp only [Option.some.injEq, Prod.mk.injEq] at h
      obtain ⟨h1, h2⟩ := h
      subst h1 h2
      refine ⟨le_refl _, ?_, ?_⟩
      · simp [grabbed_zero, processFrames_nil]
      · simp [grabbed_zero]; omega

/-- The live loop returns, given enough fuel, when the frame requests succeed from some
request `B` on. -/
theorem liveLoop_terminates {Img CvMat Cap R : Type} (cv : Collab Img CvMat Cap R)
    (grab : Nat → Bool × Option Img) (N : Nat) (hN : N < 2 ^ 16) (B : Nat)
    (hfin : ∀ k, B ≤ k → (grab k).1 = true) :
    ∀ (m i k : Nat) (st : CameraCalibration CvMat R),
      st.calib_settings.num_frames = N → i ≤ N → (N - i) + (B - k) ≤ m →
      ∃ fuel r, liveLoop cv grab fuel i k st = some r := by
  intro m
  induction m with
  | zero =>
    intro i k st hst hi hm
    exact ⟨1, (st, k), liveLoop_done cv grab 0 i k st (by omega)⟩
  | succ m ih =>
    intro i k st hst hi hm
    by_cases hlt : i < st.calib_settings.num_frames
    · cases hg : (grab k).1 with
      | false =>
        have hkB : k < B := by
          by_contra hcon
          have := hfin k (by omega)
          rw [hg] at this
          exact Bool.false_ne_true this
        obtain ⟨fuel, r, hr⟩ := ih i (k + 1) st hst hi (by omega)
        exact ⟨fuel + 1, r, by rw [liveLoop_retry cv grab fuel i k st hlt (by omega) hg, hr]⟩
      | true =>
        obtain ⟨fuel, r, hr⟩ := ih (i + 1) (k + 1) (processFrame cv st (grab k).2)
          (by rw [processFrame_calib_settings]; exact hst) (by omega) (by omega)
        exact ⟨fuel + 1, r, by rw [liveLoop_advance cv grab fuel i k st hlt (by omega) hg, hr]⟩
    · exact ⟨1, (st, k), liveLoop_done cv grab 0 i k st hlt⟩

/-- With finitely many failed frame requests the live loop returns, given enough fuel,
after processing the frames of the successful requests, `num_frames` of them. -/
theorem liveLoop_returns {Img CvMat Cap R : Type} (cv : Collab Img CvMat Cap R)
    (grab : Nat → Bool × Option Img) (st : CameraCalibration CvMat R) (B : Nat)
    (h16 : st.calib_settings.num_frames < 2 ^ 16)
    (hfin : ∀ k, B ≤ k → (grab k).1 = true) :
    ∃ fuel n,
      liveLoop cv grab fuel 0 0 st = some (processFrames cv st (grabbed grab 0 n), n) ∧
      (grabbed grab 0 n).length = st.calib_settings.num_frames := by
  obtain ⟨fuel, r, hr⟩ := liveLoop_terminates cv grab _ h16 B hfin
    (st.calib_settings.num_frames + B) 0 0 st rfl (Nat.zero_le _) (by omega)
  obtain ⟨st', k'⟩ := r
  obtain ⟨-, hst', hlen⟩ := liveLoop_result cv grab _ h16 fuel 0 0 st st' k' rfl
    (Nat.zero_le _) hr
  simp only [Nat.sub_zero] at hst' hlen
  exact ⟨fuel, k', by rw [hr, hst'], hlen⟩

/-! ## C5: live capture -/

/-- C5: in the live-stream loop, with a frame budget that fits 16 bits and frame
requests that fail only finitely often (all requests from some `B` on succeed; the first
request, at loop index 0, may fail), the loop returns, having processed exactly
`num_frames` frames, those of the successful requests in arrival order, one capture
each; a failed request is retried at the same loop index and leaves the object as it
is.  The statement is for any source of frame requests `grab`, hence for the injected
callback (`sdkGrab`) and for the local device. -/
theorem liveLoop_captures_budget {Img CvMat Cap R : Type} (cv : Collab Img CvMat Cap R)
    (grab : Nat → Bool × Option Img) (st : CameraCalibration CvMat R) (B : Nat)
    (h16 : st.calib_settings.num_frames < 2 ^ 16)
    (hfin : ∀ k, B ≤ k → (grab k).1 = true) :
    (∃ fuel n,
      liveLoop cv grab fuel 0 0 st = some (processFrames cv st (grabbed grab 0 n), n) ∧
      (grabbed grab 0 n).length = st.calib_settings.num_frames ∧
      (processFrames cv st (grabbed grab 0 n)).image_points.length
        = st.image_points.length + st.calib_settings.num_frames ∧
      (processFrames cv st (grabbed grab 0 n)).object_points.length
        = st.object_points.length + st.calib_settings.num_frames) ∧
    (∀ (fuel i k : Nat) (st1 : CameraCalibration CvMat R),
      st1.calib_settings = st.calib_settings → i < st.calib_settings.num_frames →
      (grab k).1 = false →
      liveLoop cv grab (fuel + 1) i k st1 = liveLoop cv grab fuel i (k + 1) st1) := by
  constructor
  · obtain ⟨fuel, n, hr, hlen⟩ := liveLoop_returns cv grab st B h16 hfin
    refine ⟨fuel, n, hr, hlen, ?_, ?_⟩
    · rw [processFrames_image_points, List.length_append, List.length_map, hlen]
    · rw [processFrames_object_points, List.length_append, List.length_map, hlen]
  · intro fuel i k st1 hs hi hfail
    exact liveLoop_retry cv grab fuel i k st1 (by rw [hs]; exact hi) (by omega) hfail

/-- Witness of C5: a callback that fails on its first call and succeeds afterwards, with
a budget of 3 frames. -/
theorem liveLoop_captures_budget_witness :
    (sdkGrab exampleStream 0).1 = false ∧
    ∃ fuel n,
      liveLoop (exampleCollab (id : ℚ → ℚ)) (sdkGrab exampleStream) fuel 0 0
          (exampleObject (exampleSettings CIRCLE_GRID LIVE_STREAM 2 3 3))
        = some (processFrames (exampleCollab (id : ℚ → ℚ))
            (exampleObject (exampleSettings CIRCLE_GRID LIVE_STREAM 2 3 3))
            (grabbed (sdkGrab exampleStream) 0 n), n) ∧
      (grabbed (sdkGrab exampleStream) 0 n).length = 3 := by
  refine ⟨rfl, ?_⟩
  obtain ⟨fuel, n, h1, h2, -, -⟩ :=
    (liveLoop_captures_budget (exampleCollab (id : ℚ → ℚ)) (sdkGrab exampleStream)
      (exampleObject (exampleSettings CIRCLE_GRID LIVE_STREAM 2 3 3)) 1
      (by simp [exampleObject, CameraCalibration.create, exampleSettings])
      (by
        intro k hk
        have hk0 : k ≠ 0 := by omega
        simp [sdkGrab, exampleStream, hk0])).1
  exact ⟨fuel, n, h1, h2⟩

/-! ## C6: video sampling -/

theorem frameIndex_eq (total_frames num_frames : Nat) (h32 : total_frames < 2 ^ 32)
    (hT : 1 ≤ total_frames) (hB : 1 ≤ num_frames) :
    frameIndex total_frames num_frames = some ((total_frames - 1) / num_frames) := by
  have hB0 : num_frames ≠ 0 := by omega
  have e : (total_frames % 2 ^ 32 + (2 ^ 32 - 1)) % 2 ^ 32 = total_frames - 1 := by
    norm_num at h32 ⊢
    omega
  simp only [frameIndex, if_neg hB0, e]

/-- C6: for an opened video reporting `total_frames >= 1` frames (a `uint32_t` value)
and a frame budget `num_frames >= 1`, the index of the single seek is the integer
quotient `(total_frames - 1) / num_frames`, and exactly `num_frames` successive reads
are made from the capture positioned there, each read frame being processed in order. -/
theorem sampleVideo_seek_then_reads {Img CvMat Cap R : Type} (cv : Collab Img CvMat Cap R)
    (capture : Cap) (st : CameraCalibration CvMat R) (total_frames : Nat)
    (hcount : cv.getFrameCount capture = total_frames) (h32 : total_frames < 2 ^ 32)
    (hT : 1 ≤ total_frames) (hB : 1 ≤ st.calib_settings.num_frames) :
    frameIndex total_frames st.calib_settings.num_frames
      = some ((total_frames - 1) / st.calib_settings.num_frames) ∧
    sampleVideo cv capture st
      = some (processFrames cv st
          (videoReads cv st.calib_settings.num_frames
            (cv.setPosFrames capture ((total_frames - 1) / st.calib_settings.num_frames))),
        afterReads cv st.calib_settings.num_frames
          (cv.setPosFrames capture ((total_frames - 1) / st.calib_settings.num_frames))) ∧
    (videoReads cv st.calib_settings.num_frames
      (cv.setPosFrames capture ((total_frames - 1) / st.calib_settings.num_frames))).length
      = st.calib_settings.num_frames := by
  have hidx := frameIndex_eq total_frames st.calib_settings.num_frames h32 hT hB
  refine ⟨hidx, ?_, videoReads_length _ _ _⟩
  unfold sampleVideo
  rw [hcount, hidx]
  simp only [videoFrameLoop_eq]

/-- Witness of C6: a video of 101 frames and a budget of 10 frames: the seek index is 10
and the 10 frames read are the frames 10 to 19. -/
theorem sampleVideo_seek_then_reads_witness :
    frameIndex 101 10 = some 10 ∧
    (exampleCollab (id : ℚ → ℚ)).setPosFrames exampleVideo 10 = (List.range 101, 10) ∧
    videoReads (exampleCollab (id : ℚ → ℚ)) 10 (List.range 101, 10)
      = [some 10, some 11, some 12, some 13, some 14, some 15, some 16, some 17, some 18,
          some 19] ∧
    sampleVideo (exampleCollab (id : ℚ → ℚ)) exampleVideo
        (exampleObject (exampleSettings CIRCLE_GRID CAPTURED_VIDEO 2 3 10))
      = some (processFrames (exampleCollab (id : ℚ → ℚ))
          (exampleObject (exampleSettings CIRCLE_GRID CAPTURED_VIDEO 2 3 10))
          (videoReads (exampleCollab (id : ℚ → ℚ)) 10 (List.range 101, 10)),
        afterReads (exampleCollab (id : ℚ → ℚ)) 10 (List.range 101, 10)) := by
  have h := sampleVideo_seek_then_reads (exampleCollab (id : ℚ → ℚ)) exampleVideo
    (exampleObject (exampleSettings CIRCLE_GRID CAPTURED_VIDEO 2 3 10)) 101
    (by simp [exampleCollab, exampleVideo]) (by norm_num) (by norm_num)
    (by simp [exampleObject, CameraCalibration.create, exampleSettings])
  refine ⟨by decide, rfl, ?_, ?_⟩
  · simp [videoReads, exampleCollab]
  · exact h.2.1

/-! ## C10: the still-image loop -/

theorem stillImageLoop_append {Img CvMat Cap R : Type} (cv : Collab Img CvMat Cap R)
    (pre post : List (DirEntry Img Cap)) (st : CameraCalibration CvMat R) :
    stillImageLoop cv (pre ++ post) st = stillImageLoop cv post (stillImageLoop cv pre st) := by
  simp only [stillImageLoop_eq, decodableImages, List.filterMap_append, List.map_append,
    processFrames, List.foldl_append]

/-- C10: in the still-image loop, for every directory listing, `findSalientPoints` is run
exactly on the images of the regular files that decode, once each and in listing order,
its result and one reference grid being pushed each time; an entry that does not decode
adds nothing to `image_points` or `object_points`, and the entries after it are
processed as if it were not there. -/
theorem stillImageLoop_skips_undecodable {Img CvMat Cap R : Type}
    (cv : Collab Img CvMat Cap R) (st : CameraCalibration CvMat R) :
    (∀ listing : List (DirEntry Img Cap),
      (stillImageLoop cv listing st).image_points
        = st.image_points ++ (decodableImages listing).map
            (fun img => findSalientPoints cv st.calib_settings (some img) []) ∧
      (stillImageLoop cv listing st).object_points
        = st.object_points ++ (decodableImages listing).map
            (fun _ => fillObjectPoints st.calib_settings []) ∧
      (decodableImages listing).length
        = (listing.filter (fun p => p.is_regular_file && p.imread.isSome)).length) ∧
    (∀ (pre post : List (DirEntry Img Cap)) (p : DirEntry Img Cap), p.imread = none →
      stillImageLoop cv [p] st = st ∧
      stillImageLoop cv (pre ++ p :: post) st = stillImageLoop cv (pre ++ post) st) := by
  constructor
  · intro listing
    refine ⟨?_, ?_, ?_⟩
    · rw [stillImageLoop_eq, processFrames_image_points, List.map_map]
      rfl
    · rw [stillImageLoop_eq, processFrames_object_points, List.map_map]
      rfl
    · induction listing with
      | nil => rfl
      | cons p ps ih =>
        simp only [decodableImages] at ih ⊢
        by_cases hreg : p.is_regular_file = true
        · cases himg : p.imread with
          | none => simp [List.filterMap_cons, List.filter_cons, hreg, himg, ih]
          | some img => simp [List.filterMap_cons, List.filter_cons, hreg, himg, ih]
        · simp [List.filterMap_cons, List.filter_cons, hreg, ih]
  · intro pre post p hp
    have h1 : ∀ st1 : CameraCalibration CvMat R, stillImageLoop cv [p] st1 = st1 := by
      intro st1
      simp [stillImageLoop, hp]
    refine ⟨h1 st, ?_⟩
    have e : pre ++ p :: post = pre ++ ([p] ++ post) := by simp
    rw [e, stillImageLoop_append, stillImageLoop_append, h1, ← stillImageLoop_append]

/-- The example of C10: a directory of 3 decodable images and 1 undecodable file gives
exactly 3 captures. -/
theorem stillImageLoop_three_of_four :
    (stillImageLoop (exampleCollab (id : ℚ → ℚ))
        [imageFile 0, brokenFile, imageFile 1, imageFile 2]
        (exampleObject (exampleSettings CIRCLE_GRID CAPTURED_IMAGES 2 3 5))).image_points.length
      = 3 ∧
    (stillImageLoop (exampleCollab (id : ℚ → ℚ))
        [imageFile 0, brokenFile, imageFile 1, imageFile 2]
        (exampleObject (exampleSettings CIRCLE_GRID CAPTURED_IMAGES 2 3 5))).object_points.length
      = 3 := by
  constructor <;> rfl

/-! ## C8: frames on which nothing is found -/

/-- C8 (counterexample): a fresh object and a directory with one decodable image on which
the detector does not find the pattern: no frame is reported found, and yet one capture
is stored in each array, so that the not-found frame changed both. -/
theorem stillImageLoop_stores_not_found :
    (exampleObject (exampleSettings CIRCLE_GRID CAPTURED_IMAGES 2 3 5) :
      CameraCalibration Unit ℚ).image_points.length = 0 ∧
    (exampleObject (exampleSettings CIRCLE_GRID CAPTURED_IMAGES 2 3 5) :
      CameraCalibration Unit ℚ).object_points.length = 0 ∧
    detectorFound (exampleCollab (id : ℚ → ℚ))
      (exampleSettings CIRCLE_GRID CAPTURED_IMAGES 2 3 5) (some 1) = false ∧
    ((decodableImages [imageFile 1]).filter (fun img =>
      detectorFound (exampleCollab (id : ℚ → ℚ))
        (exampleSettings CIRCLE_GRID CAPTURED_IMAGES 2 3 5) (some img))).length = 0 ∧
    (stillImageLoop (exampleCollab (id : ℚ → ℚ)) [imageFile 1]
        (exampleObject (exampleSettings CIRCLE_GRID CAPTURED_IMAGES 2 3 5))).image_points.length
      = 1 ∧
    (stillImageLoop (exampleCollab (id : ℚ → ℚ)) [imageFile 1]
        (exampleObject (exampleSettings CIRCLE_GRID CAPTURED_IMAGES 2 3 5))).object_points.length
      = 1 := by
  refine ⟨rfl, rfl, by decide, by decide, rfl, rfl⟩

/-- C8 (amended): in every acquisition variant each processed frame contributes exactly
one capture, whether the detector finds the pattern or not: a processed frame appends
the outcome of `findSalientPoints` to `image_points` and one reference grid to
`object_points`; after the still-image loop the number of captures has grown by the
number of decodable regular files, after the frame loop of a video by the number of
reads, and after the live loop, which returns when only finitely many frame requests
fail, by `num_frames`. -/
theorem acquisition_one_capture_per_frame {Img CvMat Cap R : Type}
    (cv : Collab Img CvMat Cap R) (st : CameraCalibration CvMat R) :
    (∀ image : Option Img,
      (processFrame cv st image).image_points
        = st.image_points ++ [findSalientPoints cv st.calib_settings image []] ∧
      (processFrame cv st image).object_points
        = st.object_points ++ [fillObjectPoints st.calib_settings []]) ∧
    (∀ listing : List (DirEntry Img Cap),
      (stillImageLoop cv listing st).image_points.length
        = st.image_points.length + (decodableImages listing).length ∧
      (stillImageLoop cv listing st).object_points.length
        = st.object_points.length + (decodableImages listing).length) ∧
    (∀ (n : Nat) (capture : Cap),
      (videoFrameLoop cv n capture st).1.image_points.length = st.image_points.length + n ∧
      (videoFrameLoop cv n capture st).1.object_points.length = st.object_points.length + n) ∧
    (∀ grab : Nat → Bool × Option Img, st.calib_settings.num_frames < 2 ^ 16 →
      (∀ B : Nat, (∀ k, B ≤ k → (grab k).1 = true) →
        ∃ fuel r, liveLoop cv grab fuel 0 0 st = some r) ∧
      (∀ (fuel : Nat) (st' : CameraCalibration CvMat R) (k' : Nat),
        liveLoop cv grab fuel 0 0 st = some (st', k') →
        st'.image_points.length = st.image_points.length + st.calib_settings.num_frames ∧
        st'.object_points.length
          = st.object_points.length + st.calib_settings.num_frames)) := by
  refine ⟨fun image => ⟨rfl, rfl⟩, ?_, ?_, ?_⟩
  · intro listing
    rw [stillImageLoop_eq, processFrames_image_points, processFrames_object_points]
    simp
  · intro n capture
    rw [videoFrameLoop_eq, processFrames_image_points, processFrames_object_points]
    simp [videoReads_length]
  · intro grab h16
    constructor
    · intro B hfin
      obtain ⟨fuel, n, hr, -⟩ := liveLoop_returns cv grab st B h16 hfin
      exact ⟨fuel, _, hr⟩
    · intro fuel st' k' h
      obtain ⟨-, hst', hlen⟩ := liveLoop_result cv grab _ h16 fuel 0 0 st st' k' rfl
        (Nat.zero_le _) h
      simp only [Nat.sub_zero] at hst' hlen
      rw [hst', processFrames_image_points, processFrames_object_points]
      simp [hlen]

/-! ## C2: sizes of the stored captures -/

/-- C2 (counterexample): a 2 x 3 circle grid and a directory with one decodable image on
which the detector, which gives 6 points whenever it reports found, does not find the
pattern: the stored capture has 6 object points and no image point. -/
theorem stillImageLoop_capture_size_mismatch :
    (∀ image : Option Nat,
      (exampleDetector image
        (exampleSettings CIRCLE_GRID CAPTURED_IMAGES 2 3 5).board_size).1 = true →
      (exampleDetector image
        (exampleSettings CIRCLE_GRID CAPTURED_IMAGES 2 3 5).board_size).2.length = 2 * 3) ∧
    (stillImageLoop (exampleCollab (id : ℚ → ℚ)) [imageFile 1]
        (exampleObject (exampleSettings CIRCLE_GRID CAPTURED_IMAGES 2 3 5))).image_points
      = [[]] ∧
    (stillImageLoop (exampleCollab (id : ℚ → ℚ)) [imageFile 1]
        (exampleObject (exampleSettings CIRCLE_GRID CAPTURED_IMAGES 2 3 5))).object_points.map
        List.length
      = [2 * 3] := by
  refine ⟨?_, rfl, ?_⟩
  · intro image h
    cases image with
    | none => simp [exampleDetector] at h
    | some n =>
      by_cases hn : n % 2 = 0
      · simp [exampleDetector, hn, exampleSettings, gridOf_length]
      · simp [exampleDetector, hn] at h
  · simp [stillImageLoop, imageFile, processFrame, exampleObject, CameraCalibration.create,
      fillObjectPoints_length, exampleSettings, CIRCLE_GRID, CHESS_BOARD,
      ASYMMETRIC_CIRCLE_GRID]

/-- C2 (amended): each acquisition loop is a run of the acquisition block over the frames
it processes (the live loop returns when only finitely many frame requests fail), and
after such a run, for a supported pattern on a board of `rows` by
`columns`, the two arrays have grown by one entry per processed frame; the object points
of each new capture are `rows * columns` many, and its image points are what
`findSalientPoints` returned for the frame, which for the circle-grid patterns are
`rows * columns` many when the detector reported found on that frame. -/
theorem acquisition_capture_sizes {Img CvMat Cap R : Type} (cv : Collab Img CvMat Cap R)
    (st : CameraCalibration CvMat R) (rows columns : Nat)
    (hh : st.calib_settings.board_size.height = (rows : Int))
    (hw : st.calib_settings.board_size.width = (columns : Int))
    (hp : st.calib_settings.pattern = CHESS_BOARD ∨ st.calib_settings.pattern = CIRCLE_GRID ∨
      st.calib_settings.pattern = ASYMMETRIC_CIRCLE_GRID)
    (hdet : ∀ image pts flags,
      (cv.findCirclesGrid image st.calib_settings.board_size pts flags).1 = true →
      (cv.findCirclesGrid image st.calib_settings.board_size pts flags).2.length
        = rows * columns) :
    (∀ listing : List (DirEntry Img Cap),
      stillImageLoop cv listing st
        = processFrames cv st ((decodableImages listing).map some)) ∧
    (∀ (n : Nat) (capture : Cap),
      (videoFrameLoop cv n capture st).1 = processFrames cv st (videoReads cv n capture)) ∧
    (∀ grab : Nat → Bool × Option Img, st.calib_settings.num_frames < 2 ^ 16 →
      (∀ B : Nat, (∀ k, B ≤ k → (grab k).1 = true) →
        ∃ fuel r, liveLoop cv grab fuel 0 0 st = some r) ∧
      (∀ (fuel : Nat) (st' : CameraCalibration CvMat R) (k' : Nat),
        liveLoop cv grab fuel 0 0 st = some (st', k') →
        st' = processFrames cv st (grabbed grab 0 k'))) ∧
    ∀ frames : List (Option Img),
      (processFrames cv st frames).object_points.length
        = st.object_points.length + frames.length ∧
      (processFrames cv st frames).image_points.length
        = st.image_points.length + frames.length ∧
      ∀ (k : Nat) (frame : Option Img), frames[k]? = some frame →
        ∃ obj img,
          (processFrames cv st frames).object_points[st.object_points.length + k]? = some obj ∧
          (processFrames cv st frames).image_points[st.image_points.length + k]? = some img ∧
          obj.length = rows * columns ∧
          img = findSalientPoints cv st.calib_settings frame [] ∧
          (st.calib_settings.pattern ≠ CHESS_BOARD →
            detectorFound cv st.calib_settings frame = true →
            img.length = rows * columns) := by
  refine ⟨fun listing => stillImageLoop_eq cv listing st, ?_, ?_, ?_⟩
  · intro n capture
    rw [videoFrameLoop_eq]
  · intro grab h16
    constructor
    · intro B hfin
      obtain ⟨fuel, n, hr, -⟩ := liveLoop_returns cv grab st B h16 hfin
      exact ⟨fuel, _, hr⟩
    · intro fuel st' k' h
      obtain ⟨-, hst', -⟩ := liveLoop_result cv grab _ h16 fuel 0 0 st st' k' rfl
        (Nat.zero_le _) h
      simpa using hst'
  · intro frames
    refine ⟨by rw [processFrames_object_points]; simp,
      by rw [processFrames_image_points]; simp, ?_⟩
    intro k frame hk
    refine ⟨fillObjectPoints st.calib_settings [],
      findSalientPoints cv st.calib_settings frame [], ?_, ?_, ?_, rfl, ?_⟩
    · rw [processFrames_object_points, List.getElem?_append_right (Nat.le_add_right _ _),
        Nat.add_sub_cancel_left, List.getElem?_map, hk]
      rfl
    · rw [processFrames_image_points, List.getElem?_append_right (Nat.le_add_right _ _),
        Nat.add_sub_cancel_left, List.getElem?_map, hk]
      rfl
    · rw [fillObjectPoints_length _ hp, hh, hw]
      simp
    · intro hne hfound
      have hp2 : st.calib_settings.pattern = CIRCLE_GRID ∨
          st.calib_settings.pattern = ASYMMETRIC_CIRCLE_GRID := by
        rcases hp with hp | hp | hp
        · exact absurd hp hne
        · exact Or.inl hp
        · exact Or.inr hp
      rw [findSalientPoints_circles cv _ frame [] hp2]
      apply hdet
      unfold detectorFound at hfound
      rw [if_neg hne] at hfound
      by_cases hc : st.calib_settings.pattern = CIRCLE_GRID
      · rw [if_pos hc] at hfound ⊢
        exact hfound
      · rw [if_neg hc] at hfound ⊢
        rcases hp2 with hp2 | hp2
        · exact absurd hp2 hc
        · rw [if_pos hp2] at hfound
          exact hfound

/-- Witness of C2 (amended): a 2 x 3 circle grid and the frames 0 (found) and 1 (not
found): the capture of frame 0 has 6 object points and 6 image points. -/
theorem acquisition_capture_sizes_witness :
    (processFrames (exampleCollab (id : ℚ → ℚ))
        (exampleObject (exampleSettings CIRCLE_GRID CAPTURED_IMAGES 2 3 5))
        [some 0, some 1]).object_points.length = 0 + 2 ∧
    ∃ obj img,
      (processFrames (exampleCollab (id : ℚ → ℚ))
        (exampleObject (exampleSettings CIRCLE_GRID CAPTURED_IMAGES 2 3 5))
        [some 0, some 1]).object_points[0 + 0]? = some obj ∧
      (processFrames (exampleCollab (id : ℚ → ℚ))
        (exampleObject (exampleSettings CIRCLE_GRID CAPTURED_IMAGES 2 3 5))
        [some 0, some 1]).image_points[0 + 0]? = some img ∧
      obj.length = 2 * 3 ∧ img.length = 2 * 3 := by
  have h := (acquisition_capture_sizes (exampleCollab (id : ℚ → ℚ))
    (exampleObject (exampleSettings CIRCLE_GRID CAPTURED_IMAGES 2 3 5)) 2 3 rfl rfl
    (Or.inr (Or.inl rfl))
    (by
      intro image pts flags hfound
      cases image with
      | none => simp [exampleCollab, exampleDetector] at hfound
      | some n =>
        by_cases hn : n % 2 = 0
        · simp [exampleCollab, exampleDetector, hn, exampleObject, CameraCalibration.create,
            exampleSettings, gridOf_length]
        · simp [exampleCollab, exampleDetector, hn] at hfound)).2.2.2 [some 0, some 1]
  refine ⟨h.1, ?_⟩
  obtain ⟨obj, img, h1, h2, h3, -, h5⟩ := h.2.2 0 (some 0) rfl
  exact ⟨obj, img, h1, h2, h3, h5 (by decide) (by decide)⟩

/-! ## C3 and C4: reprojection errors -/

theorem resize_length {α : Type} (v : List α) (n : Nat) (d : α) :
    (resize v n d).length = n := by
  simp only [resize, List.length_append, List.length_take, List.length_replicate]
  omega

theorem take_succ_set {α : Type} (l : List α) (i : Nat) (v : α) (h : i < l.length) :
    (l.set i v).take (i + 1) = l.take i ++ [v] := by
  induction l generalizing i with
  | nil => simp at h
  | cons a l ih =>
    cases i with
    | zero => simp
    | succ i =>
      simp only [List.length_cons, Nat.add_lt_add_iff_right] at h
      simp [List.set_cons_succ, List.take_succ_cons, ih i h]

/-- The four reads of one iteration succeed when `captureError` is defined. -/
theorem captureError_some {Img CvMat Cap R : Type} (cv : Collab Img CvMat Cap R)
    (st : CameraCalibration CvMat R) (i : Nat) (e : R) (h : captureError cv st i = some e) :
    ∃ obj rvec tvec img, st.object_points[i]? = some obj ∧ st.rvecs[i]? = some rvec ∧
      st.tvecs[i]? = some tvec ∧ st.image_points[i]? = some img ∧
      cv.norm img (cv.projectPoints obj rvec tvec st.camera_matrix st.dist_coeffs) = e := by
  unfold captureError at h
  split at h
  · next obj rvec tvec img h1 h2 h3 h4 =>
    exact ⟨obj, rvec, tvec, img, h1, h2, h3, h4, Option.some.inj h⟩
  · exact absurd h (by simp)

/-- The state of the loop of `computeReprojectionErrors` after its last `r` iterations. -/
theorem reprojectionLoop_eq {Img CvMat Cap R : Type} [Field R] (cv : Collab Img CvMat Cap R)
    (st : CameraCalibration CvMat R) (n : Nat → Nat) (E : Nat → R)
    (h : ∀ i, i < st.object_points.length →
      (st.object_points[i]?).map List.length = some (n i) ∧
      captureError cv st i = some (E i)) :
    ∀ (r i : Nat) (per_capture : List (Option R)) (total_error : R) (total_points : Nat),
      i + r = st.object_points.length → per_capture.length = st.object_points.length →
      reprojectionLoop cv st r i per_capture total_error total_points
        = some (per_capture.take i ++ (List.range' i r).map
              (fun j => (divCount (E j * E j) (n j)).map cv.sqrt) ++ per_capture.drop (i + r),
            total_error + ((List.range' i r).map (fun j => E j * E j)).sum,
            total_points + ((List.range' i r).map n).sum) := by
  intro r
  induction r with
  | zero =>
    intro i pc te tp _ _
    simp [reprojectionLoop]
  | succ r ih =>
    intro i pc te tp hir hlen
    obtain ⟨hn, hE⟩ := h i (by omega)
    obtain ⟨obj, rvec, tvec, img, h1, h2, h3, h4, h5⟩ := captureError_some cv st i (E i) hE
    have hobj : obj.length = n i := by
      rw [h1] at hn
      simpa using hn
    rw [reprojectionLoop]
    simp only [h1, h2, h3, h4, h5, hobj]
    rw [ih (i + 1) _ _ _ (by omega) (by simpa using hlen)]
    have hi : i < pc.length := by omega
    rw [take_succ_set pc i _ hi]
    have hdrop : (pc.set i (Option.map cv.sqrt (divCount (E i * E i) (n i)))).drop (i + 1 + r)
        = pc.drop (i + (r + 1)) := by
      rw [List.drop_set, if_pos (by omega)]
      congr 1
      omega
    rw [hdrop]
    simp only [List.range'_succ, List.map_cons, List.sum_cons, List.append_assoc,
      List.singleton_append, List.cons_append, List.nil_append, add_assoc, Nat.add_assoc]

/-- What `computeReprojectionErrors` stores and returns, in terms of the point counts
`n i` and the difference norms `E i` of the captures. -/
theorem computeReprojectionErrors_eq {Img CvMat Cap R : Type} [Field R]
    (cv : Collab Img CvMat Cap R) (st : CameraCalibration CvMat R) (n : Nat → Nat)
    (E : Nat → R)
    (h : ∀ i, i < st.object_points.length →
      (st.object_points[i]?).map List.length = some (n i) ∧
      captureError cv st i = some (E i)) :
    computeReprojectionErrors cv st
      = some ({ st with
                per_capture_projection_error := (List.range st.object_points.length).map
                  (fun j => (divCount (E j * E j) (n j)).map cv.sqrt) },
          (divCount (((List.range st.object_points.length).map (fun j => E j * E j)).sum)
            (((List.range st.object_points.length).map n).sum)).map cv.sqrt) := by
  unfold computeReprojectionErrors
  rw [reprojectionLoop_eq cv st n E h st.object_points.length 0 _ 0 0 (by omega)
    (resize_length _ _ _)]
  have hdrop : (resize st.per_capture_projection_error st.object_points.length
      (some (0 : R))).drop st.object_points.length = [] := by
    apply List.drop_eq_nil_of_le
    rw [resize_length]
  simp only [zero_add, hdrop, List.take_zero, List.nil_append, List.append_nil,
    ← List.range_eq_range']

theorem sum_range_pos (n : Nat → Nat) (m : Nat) (hm : 0 < m)
    (hpos : ∀ i, i < m → 0 < n i) : 0 < ((List.range m).map n).sum := by
  cases m with
  | zero => omega
  | succ m =>
    rw [List.range_eq_range', List.range'_succ, List.map_cons, List.sum_cons]
    have := hpos 0 (by omega)
    omega

/-- C3: for a non-empty correspondence set whose captures have point counts `n i > 0` and
difference norms `E i` between observed and projected points,
`computeReprojectionErrors` stores `sqrt (E i ^ 2 / n i)` as the `i`-th per-capture error,
one entry per capture in capture order, and returns
`sqrt (sum (E i ^ 2) / sum (n i))`, the RMS weighted by the point counts. -/
theorem computeReprojectionErrors_weighted_rms {Img CvMat Cap R : Type} [Field R]
    (cv : Collab Img CvMat Cap R) (st : CameraCalibration CvMat R) (n : Nat → Nat)
    (E : Nat → R) (hne : 0 < st.object_points.length)
    (h : ∀ i, i < st.object_points.length →
      (st.object_points[i]?).map List.length = some (n i) ∧
      captureError cv st i = some (E i))
    (hpos : ∀ i, i < st.object_points.length → 0 < n i) :
    computeReprojectionErrors cv st
      = some ({ st with
                per_capture_projection_error := (List.range st.object_points.length).map
                  (fun i => some (cv.sqrt (E i ^ 2 / (n i : R)))) },
          some (cv.sqrt (((List.range st.object_points.length).map (fun i => E i ^ 2)).sum
            / ((((List.range st.object_points.length).map n).sum : Nat) : R)))) := by
  rw [computeReprojectionErrors_eq cv st n E h]
  have hmap : (List.range st.object_points.length).map
        (fun j => (divCount (E j * E j) (n j)).map cv.sqrt)
      = (List.range st.object_points.length).map
        (fun i => some (cv.sqrt (E i ^ 2 / (n i : R)))) := by
    apply List.map_congr_left
    intro i hi
    have hi2 := hpos i (List.mem_range.mp hi)
    have hi3 : n i ≠ 0 := by omega
    simp [divCount, hi3, pow_two]
  have hsum := sum_range_pos n _ hne hpos
  have hsum0 : ((List.range st.object_points.length).map n).sum ≠ 0 := by omega
  have hsq : (fun j => E j * E j) = (fun i => E i ^ 2) := by
    funext j
    rw [pow_two]
  rw [hmap, hsq]
  simp [divCount, hsum0]

theorem real_sqrt_four : Real.sqrt 4 = 2 := by
  rw [show (4 : ℝ) = 2 ^ 2 by norm_num]
  exact Real.sqrt_sq (by norm_num)

theorem real_sqrt_nine : Real.sqrt 9 = 3 := by
  rw [show (9 : ℝ) = 3 ^ 2 by norm_num]
  exact Real.sqrt_sq (by norm_num)

/-- Witness of C3: two captures with `n = 4, E = 2` and `n = 6, E = 3`, over the reals:
the per-capture values are `1` and `sqrt (9 / 6)`, and the returned value is
`sqrt (13 / 10)`, which is not the mean of the two. -/
theorem computeReprojectionErrors_weighted_rms_witness :
    captureError (exampleCollab Real.sqrt) exampleCaptures 0 = some 2 ∧
    captureError (exampleCollab Real.sqrt) exampleCaptures 1 = some 3 ∧
    (computeReprojectionErrors (exampleCollab Real.sqrt) exampleCaptures).map
        (fun r => (r.1.per_capture_projection_error, r.2))
      = some ([some 1, some (Real.sqrt (9 / 6))], some (Real.sqrt (13 / 10))) ∧
    Real.sqrt (13 / 10) ≠ (1 + Real.sqrt (9 / 6)) / 2 := by
  have hE0 : captureError (exampleCollab Real.sqrt) exampleCaptures 0 = some 2 := by
    simp [captureError, exampleCaptures, exampleCollab, normL2, sumSqDiff]
    norm_num
    exact real_sqrt_four
  have hE1 : captureError (exampleCollab Real.sqrt) exampleCaptures 1 = some 3 := by
    simp [captureError, exampleCaptures, exampleCollab, normL2, sumSqDiff]
  have h := computeReprojectionErrors_weighted_rms (exampleCollab Real.sqrt) exampleCaptures
    (fun i => if i = 0 then 4 else 6) (fun i => if i = 0 then 2 else 3)
    (by simp [exampleCaptures])
    (by
      intro i hi
      have hi2 : i < 2 := by simpa [exampleCaptures] using hi
      interval_cases i
      · exact ⟨by simp [exampleCaptures], hE0⟩
      · exact ⟨by simp [exampleCaptures], hE1⟩)
    (by
      intro i _
      by_cases hi : i = 0 <;> simp [hi])
  refine ⟨hE0, hE1, ?_, ?_⟩
  · rw [h]
    simp [exampleCaptures, exampleCollab, List.range_succ]
    norm_num
    exact ⟨by rw [real_sqrt_four]; norm_num, by rw [real_sqrt_nine]⟩
  · intro heq
    have ha : Real.sqrt (13 / 10) ^ 2 = 13 / 10 := Real.sq_sqrt (by norm_num)
    have hb : Real.sqrt (9 / 6) ^ 2 = 9 / 6 := Real.sq_sqrt (by norm_num)
    have hb2 : Real.sqrt (9 / 6) = 2 * Real.sqrt (13 / 10) - 1 := by linarith
    rw [hb2] at hb
    have ha2 : Real.sqrt (13 / 10) = 47 / 40 := by nlinarith
    rw [ha2] at ha
    norm_num at ha

theorem sumSqDiff_self {R : Type} [Field R] (a : List Point2f) :
    (sumSqDiff a a : R) = 0 := by
  induction a with
  | nil => rfl
  | cons p ps ih => simp [sumSqDiff, ih]

theorem normL2_self {R : Type} [Field R] (sqrt : R → R) (hsqrt : sqrt 0 = 0)
    (a : List Point2f) : normL2 sqrt a a = 0 := by
  rw [normL2, sumSqDiff_self, hsqrt]

/-- C4 (counterexample): over the reals, with projections equal to the observations in
every capture, the value returned for the empty correspondence set is not a number, and
so are the per-capture entry and the returned value for a set of one capture without
points. -/
theorem computeReprojectionErrors_no_points :
    (computeReprojectionErrors (exampleCollab Real.sqrt)
        (exampleObject (exampleSettings CIRCLE_GRID CAPTURED_IMAGES 2 3 5))).map
        (fun r => (r.1.per_capture_projection_error, r.2))
      = some ([], none) ∧
    (exampleCollab Real.sqrt).projectPoints [] () () () [] = [] ∧
    (computeReprojectionErrors (exampleCollab Real.sqrt) exampleEmptyCapture).map
        (fun r => (r.1.per_capture_projection_error, r.2))
      = some ([none], none) := by
  refine ⟨?_, rfl, ?_⟩
  · simp [computeReprojectionErrors, reprojectionLoop, resize, divCount, exampleObject,
      CameraCalibration.create]
  · simp [computeReprojectionErrors, reprojectionLoop, resize, divCount, exampleEmptyCapture,
      exampleObject, CameraCalibration.create]

theorem map_length_range {α : Type} (l : List (List α)) :
    (List.range l.length).map (fun i => ((l[i]?).map List.length).getD 0)
      = l.map List.length := by
  apply List.ext_getElem?
  intro i
  by_cases hi : i < l.length
  · simp [List.getElem?_map, List.getElem?_range hi, List.getElem?_eq_getElem hi]
  · have hi2 : l.length ≤ i := by omega
    simp [List.getElem?_map, List.getElem?_eq_none, hi2]

/-- C4 (amended): for a correspondence set with a rotation, a translation and observed
image points for every capture, and a projector whose output for each capture equals the
observed image points, `computeReprojectionErrors` returns, with one per-capture entry
per capture; the entry of every capture that has at least one object point is 0 and the
entry of every capture without object points is not a number, and the returned aggregate
is 0 when the captures hold at least one object point in total and not a number when
they hold none. -/
theorem computeReprojectionErrors_exact_projection {Img CvMat Cap R : Type} [Field R]
    (cv : Collab Img CvMat Cap R) (st : CameraCalibration CvMat R)
    (hvec : ∀ (i : Nat) (obj : List Point3f), st.object_points[i]? = some obj →
      ∃ rvec tvec img, st.rvecs[i]? = some rvec ∧ st.tvecs[i]? = some tvec ∧
        st.image_points[i]? = some img ∧
        cv.projectPoints obj rvec tvec st.camera_matrix st.dist_coeffs = img)
    (hnorm : ∀ pts, cv.norm pts pts = 0) (hsqrt : cv.sqrt 0 = 0) :
    ∃ st' aggregate, computeReprojectionErrors cv st = some (st', aggregate) ∧
      st'.per_capture_projection_error.length = st.object_points.length ∧
      (∀ (i : Nat) (obj : List Point3f), st.object_points[i]? = some obj → 0 < obj.length →
        st'.per_capture_projection_error[i]? = some (some 0)) ∧
      (∀ (i : Nat) (obj : List Point3f), st.object_points[i]? = some obj → obj.length = 0 →
        st'.per_capture_projection_error[i]? = some none) ∧
      (0 < (st.object_points.map List.length).sum → aggregate = some 0) ∧
      ((st.object_points.map List.length).sum = 0 → aggregate = none) := by
  have h : ∀ i, i < st.object_points.length →
      (st.object_points[i]?).map List.length
        = some ((fun i => ((st.object_points[i]?).map List.length).getD 0) i) ∧
      captureError cv st i = some ((fun _ => (0 : R)) i) := by
    intro i hi
    have hobj : st.object_points[i]? = some st.object_points[i] :=
      List.getElem?_eq_getElem hi
    obtain ⟨rvec, tvec, img, h2, h3, h4, h5⟩ := hvec i _ hobj
    refine ⟨by simp [hobj], ?_⟩
    simp only [captureError, hobj, h2, h3, h4, h5, hnorm]
  refine ⟨_, _, computeReprojectionErrors_eq cv st _ _ h, ?_, ?_, ?_, ?_, ?_⟩
  · simp
  · intro i obj hobj hpos
    have hi : i < st.object_points.length := by
      by_contra hcon
      rw [List.getElem?_eq_none (by omega)] at hobj
      exact absurd hobj (by simp)
    have hpos0 : obj.length ≠ 0 := by omega
    simp [List.getElem?_map, List.getElem?_range hi, hobj, divCount, hpos0, hsqrt]
  · intro i obj hobj hzero
    have hi : i < st.object_points.length := by
      by_contra hcon
      rw [List.getElem?_eq_none (by omega)] at hobj
      exact absurd hobj (by simp)
    simp [List.getElem?_map, List.getElem?_range hi, hobj, divCount, hzero]
  · intro hpos
    have hpos0 : (st.object_points.map List.length).sum ≠ 0 := by omega
    rw [map_length_range]
    simp [divCount, hpos0, hsqrt]
  · intro hzero
    rw [map_length_range]
    simp [divCount, hzero]

/-- Witness of C4 (amended): two captures of 4 and 2 points observed exactly at their
projections, over the reals: both per-capture entries and the returned value are 0. -/
theorem computeReprojectionErrors_exact_projection_witness :
    ∃ st' aggregate,
      computeReprojectionErrors (exampleCollab Real.sqrt) exampleExactCaptures
        = some (st', aggregate) ∧
      st'.per_capture_projection_error[0]? = some (some 0) ∧
      st'.per_capture_projection_error[1]? = some (some 0) ∧
      aggregate = some 0 := by
  obtain ⟨st', aggregate, h1, -, h3, -, h4, -⟩ :=
    computeReprojectionErrors_exact_projection (exampleCollab Real.sqrt) exampleExactCaptures
      (by
        intro i obj hobj
        have hi : i < 2 := by
          by_contra hcon
          rw [List.getElem?_eq_none (by simp [exampleExactCaptures]; omega)] at hobj
          exact absurd hobj (by simp)
        interval_cases i
        · refine ⟨(), (), _, rfl, rfl, rfl, ?_⟩
          simp only [exampleExactCaptures, List.getElem?_cons_zero, Option.some.injEq] at hobj
          subst hobj
          rfl
        · refine ⟨(), (), _, rfl, rfl, rfl, ?_⟩
          simp only [exampleExactCaptures, List.getElem?_cons_succ, List.getElem?_cons_zero,
            Option.some.injEq] at hobj
          subst hobj
          rfl)
      (fun pts => normL2_self Real.sqrt Real.sqrt_zero pts) Real.sqrt_zero
  refine ⟨st', aggregate, h1, h3 0 _ rfl (by decide), h3 1 _ rfl (by decide), h4 ?_⟩
  simp [exampleExactCaptures, exampleObject, CameraCalibration.create]

/-! ## C11: solving without correspondences -/

/-- The solver call on an object without captures, when the solver raises. -/
theorem solve_empty_raises {Img CvMat Cap R : Type} (cv : Collab Img CvMat Cap R)
    (st : CameraCalibration CvMat R) (hobj : st.object_points = [])
    (himg : st.image_points = [])
    (hsolver : cv.calibrateCamera [] [] st.calib_settings.board_size st.camera_matrix
      st.dist_coeffs 0 = none) :
    solve cv st = .error { st with solver_calls := st.solver_calls ++ [([], [])] } := by
  unfold solve
  simp only [hobj, himg, hsolver]

/-- The solver call on an object without captures, when the solver returns. -/
theorem solve_empty_returns {Img CvMat Cap R : Type} (cv : Collab Img CvMat Cap R)
    (st : CameraCalibration CvMat R) (hobj : st.object_points = [])
    (himg : st.image_points = []) (r : CvMat × List ℚ × List CvMat × List CvMat)
    (hsolver : cv.calibrateCamera [] [] st.calib_settings.board_size st.camera_matrix
      st.dist_coeffs 0 = some r) :
    solve cv st = .ok { st with solver_calls := st.solver_calls ++ [([], [])],
                                camera_matrix := r.1, dist_coeffs := r.2.1,
                                rvecs := r.2.2.1, tvecs := r.2.2.2 } := by
  unfold solve
  simp only [hobj, himg, hsolver]

/-- The video loop over a listing without any regular file that opens as a video. -/
theorem videoLoop_nothing_opened {Img CvMat Cap R : Type} (cv : Collab Img CvMat Cap R)
    (listing : List (DirEntry Img Cap)) (st : CameraCalibration CvMat R)
    (h : ∀ p ∈ listing, p.is_regular_file = false ∨ cv.isOpened p.capture = false) :
    videoLoop cv listing st = .ok st := by
  induction listing with
  | nil => rfl
  | cons p ps ih =>
    have ihp := ih (fun q hq => h q (List.mem_cons_of_mem _ hq))
    unfold videoLoop
    rcases h p (List.mem_cons_self _ _) with hp | hp
    · simp only [hp, Bool.false_eq_true, if_false]
      exact ihp
    · by_cases hreg : p.is_regular_file = true
      · simp only [hreg, if_true, hp, Bool.not_false]
        exact ihp
      · simp only [hreg, if_false]
        exact ihp

/-- C11 (counterexample): a fresh object and an existing but empty image directory: the
solver is called, once, on the empty arrays; the run fails because this solver raises on
them, and with a solver that accepts them the run returns normally.  The same holds for
a live stream with a frame budget of 0. -/
theorem calibrateCamera_solves_without_captures :
    calibrateCamera (exampleCollab (id : ℚ → ℚ)) (exampleWorld []) none 0
        (exampleObject (exampleSettings CIRCLE_GRID CAPTURED_IMAGES 2 3 5))
      = some (.error (Abort.solver_exception,
          { exampleObject (exampleSettings CIRCLE_GRID CAPTURED_IMAGES 2 3 5) with
            solver_calls := [([], [])] })) ∧
    calibrateCamera lenientCollab (exampleWorld []) none 0
        (exampleObject (exampleSettings CIRCLE_GRID CAPTURED_IMAGES 2 3 5))
      = some (.ok
          { exampleObject (exampleSettings CIRCLE_GRID CAPTURED_IMAGES 2 3 5) with
            solver_calls := [([], [])] }) ∧
    calibrateCamera (exampleCollab (id : ℚ → ℚ)) (exampleWorld []) (some exampleStream) 1
        (exampleObject (exampleSettings CIRCLE_GRID LIVE_STREAM 2 3 0))
      = some (.error (Abort.solver_exception,
          { exampleObject (exampleSettings CIRCLE_GRID LIVE_STREAM 2 3 0) with
            solver_calls := [([], [])] })) ∧
    calibrateCamera lenientCollab (exampleWorld []) (some exampleStream) 1
        (exampleObject (exampleSettings CIRCLE_GRID LIVE_STREAM 2 3 0))
      = some (.ok
          { exampleObject (exampleSettings CIRCLE_GRID LIVE_STREAM 2 3 0) with
            solver_calls := [([], [])] }) := by
  refine ⟨rfl, rfl, rfl, rfl⟩

/-- C11 (amended): for a run of `calibrateCamera` on an object without captures whose
acquisition adds none, over an existing image directory without decodable regular file
or over a live stream with a frame budget of 0, the solver is called once, on the empty
arrays, and decides the outcome: the run stops with the solver's exception when it
raises, and returns with its results when it returns.  Over an existing video directory
without any regular file that opens as a video the run returns without calling the
solver. -/
theorem calibrateCamera_zero_correspondences {Img CvMat Cap R : Type}
    (cv : Collab Img CvMat Cap R) (w : World Img Cap)
    (getImageFromSDK : Option (Nat → Option Img)) (st : CameraCalibration CvMat R)
    (hobj : st.object_points = []) (himg : st.image_points = []) :
    (∀ (listing : List (DirEntry Img Cap)) (fuel : Nat),
      st.calib_settings.input = CAPTURED_IMAGES →
      w.directory st.calib_settings.image_folder = some listing →
      decodableImages listing = [] →
      (cv.calibrateCamera [] [] st.calib_settings.board_size st.camera_matrix
          st.dist_coeffs 0 = none →
        calibrateCamera cv w getImageFromSDK fuel st
          = some (.error (Abort.solver_exception,
              { st with solver_calls := st.solver_calls ++ [([], [])] }))) ∧
      (∀ r, cv.calibrateCamera [] [] st.calib_settings.board_size st.camera_matrix
          st.dist_coeffs 0 = some r →
        calibrateCamera cv w getImageFromSDK fuel st
          = some (.ok { st with solver_calls := st.solver_calls ++ [([], [])],
                                camera_matrix := r.1, dist_coeffs := r.2.1,
                                rvecs := r.2.2.1, tvecs := r.2.2.2 }))) ∧
    (∀ fuel : Nat,
      st.calib_settings.input = LIVE_STREAM → st.calib_settings.num_frames = 0 →
      (cv.calibrateCamera [] [] st.calib_settings.board_size st.camera_matrix
          st.dist_coeffs 0 = none →
        calibrateCamera cv w getImageFromSDK (fuel + 1) st
          = some (.error (Abort.solver_exception,
              { st with solver_calls := st.solver_calls ++ [([], [])] }))) ∧
      (∀ r, cv.calibrateCamera [] [] st.calib_settings.board_size st.camera_matrix
          st.dist_coeffs 0 = some r →
        calibrateCamera cv w getImageFromSDK (fuel + 1) st
          = some (.ok { st with solver_calls := st.solver_calls ++ [([], [])],
                                camera_matrix := r.1, dist_coeffs := r.2.1,
                                rvecs := r.2.2.1, tvecs := r.2.2.2 }))) ∧
    (∀ (listing : List (DirEntry Img Cap)) (fuel : Nat),
      st.calib_settings.input = CAPTURED_VIDEO →
      w.directory st.calib_settings.video_folder = some listing →
      (∀ p ∈ listing, p.is_regular_file = false ∨ cv.isOpened p.capture = false) →
      calibrateCamera cv w getImageFromSDK fuel st = some (.ok st)) := by
  refine ⟨?_, ?_, ?_⟩
  · intro listing fuel hin hdir hdec
    have hloop : stillImageLoop cv listing st = st := by
      rw [stillImageLoop_eq, hdec]
      rfl
    constructor
    · intro hsolver
      unfold calibrateCamera
      rw [if_pos hin]
      simp only [hdir, hloop, solve_empty_raises cv st hobj himg hsolver]
    · intro r hsolver
      unfold calibrateCamera
      rw [if_pos hin]
      simp only [hdir, hloop, solve_empty_returns cv st hobj himg r hsolver]
  · intro fuel hin hzero
    have hne1 : st.calib_settings.input ≠ CAPTURED_IMAGES := by
      rw [hin]; decide
    have hne2 : st.calib_settings.input ≠ CAPTURED_VIDEO := by
      rw [hin]; decide
    have hloop : ∀ grab : Nat → Bool × Option Img,
        liveLoop cv grab (fuel + 1) 0 0 st = some (st, 0) := by
      intro grab
      exact liveLoop_done cv grab fuel 0 0 st (by omega)
    constructor
    · intro hsolver
      unfold calibrateCamera
      rw [if_neg hne1, if_neg hne2, if_pos hin]
      simp only [hloop, solve_empty_raises cv st hobj himg hsolver]
    · intro r hsolver
      unfold calibrateCamera
      rw [if_neg hne1, if_neg hne2, if_pos hin]
      simp only [hloop, solve_empty_returns cv st hobj himg r hsolver]
  · intro listing fuel hin hdir hnone
    have hne1 : st.calib_settings.input ≠ CAPTURED_IMAGES := by
      rw [hin]; decide
    unfold calibrateCamera
    rw [if_neg hne1, if_pos hin]
    simp only [hdir, videoLoop_nothing_opened cv listing st hnone]

/-- Witness of C11 (amended): a fresh object, an image directory holding one file that
does not decode, and the solver that accepts the empty arrays: the run returns with one
recorded solver call. -/
theorem calibrateCamera_zero_correspondences_witness :
    calibrateCamera lenientCollab (exampleWorld [brokenFile]) none 0
        (exampleObject (exampleSettings CIRCLE_GRID CAPTURED_IMAGES 2 3 5))
      = some (.ok
          { exampleObject (exampleSettings CIRCLE_GRID CAPTURED_IMAGES 2 3 5) with
            solver_calls := [] ++ [([], [])], camera_matrix := (), dist_coeffs := [],
            rvecs := [], tvecs := [] }) :=
  ((calibrateCamera_zero_correspondences lenientCollab (exampleWorld [brokenFile]) none
    (exampleObject (exampleSettings CIRCLE_GRID CAPTURED_IMAGES 2 3 5)) rfl rfl).1
    [brokenFile] 0 rfl rfl rfl).2 ((), [], [], []) rfl

end CamCalib
